import Mathlib

/-!
# TellDB: Field, B-tree backend adapter and Transaction

A shallow embedding of `src/src/Field.cpp`, `src/src/BdTreeBackend.cpp` and
`src/src/Transaction.cpp`.

* C++ exceptions are the error side of `Except Exn _`.
* A `boost::any` payload is a value of `AnyValue`; `boost::any_cast<T>` succeeds only
  when the payload holds exactly a `T` and throws `boost::bad_any_cast` otherwise.
* Machine integers are `Int`/`Nat` with explicit range checks or reductions.
* Floating point payloads are IEEE-754 bit patterns; their comparison and their object
  representation are modelled. `boost::lexical_cast` with a floating point source or
  target is library code and is taken as a parameter (`FloatLexicalCast`); its
  conversions between integers and floating point whole numbers are given by the instance
  `FloatLexicalCast.wholeNumbers`.
* Calls on collaborators (store handle, transaction cache, commit manager) are recorded
  in a trace; their answers are read from an environment.
-/

namespace TellDB

/-! ## Field.cpp -/

/-- The tags of `tell::store::FieldType`. -/
inductive FieldType where
  | NOTYPE
  | NULLTYPE
  | SMALLINT
  | INT
  | BIGINT
  | FLOAT
  | DOUBLE
  | TEXT
  | BLOB
  deriving DecidableEq, Repr

/-- The message carried by a `std::invalid_argument` or `std::logic_error`. -/
inductive What where
  /-- "Can only compare fields of same type" (TypeMismatch) -/
  | sameTypeOnly
  /-- "Can not compare fields without types" (Unorderable) -/
  | compareNoType
  /-- "Can not compare BLOBs" (Unorderable) -/
  | compareBlob
  /-- "Can not serialize a notype" (NotSerializable) -/
  | serializeNoType
  /-- "Transaction has already committed" (AlreadyFinished) -/
  | alreadyCommitted
  /-- "Transaction is read only" (ReadOnly) -/
  | readOnly
  /-- "Invalid field" -/
  | invalidField
  deriving DecidableEq, Repr

/-- The C++ exceptions that the embedded code can raise. -/
inductive Exn where
  /-- `std::invalid_argument(what)` -/
  | invalid_argument (what : What)
  /-- `std::logic_error(what)` -/
  | logic_error (what : What)
  /-- `std::bad_cast()` (BadCast) -/
  | bad_cast
  /-- `boost::bad_lexical_cast`, a subclass of `std::bad_cast` (BadCast) -/
  | bad_lexical_cast
  /-- `boost::bad_any_cast`: the payload of a `boost::any` has another type than asked for -/
  | bad_any_cast
  /-- An exception raised inside a collaborator (cache, store handle), e.g. a conflict or
  a transport failure, identified by a number. -/
  | thrown (code : Nat)
  /-- A failed `LOG_ASSERT`. -/
  | assertion
  deriving DecidableEq, Repr

deriving instance DecidableEq for Except

/-- The content of a `boost::any`. Strings are byte sequences. A `crossbow::string` held
by value and a `const crossbow::string*` are different payload types for `any_cast`; for
the pointer the pointee is recorded. -/
inductive AnyValue where
  | empty
  | int16 (v : Int)
  | int32 (v : Int)
  | int64 (v : Int)
  | float (bits : Nat)
  | double (bits : Nat)
  | string (s : List Nat)
  | stringPtr (s : List Nat)
  deriving DecidableEq, Repr

/-- The class `Field`: a tag and a type-erased payload. -/
structure Field where
  mType : FieldType
  mValue : AnyValue
  deriving DecidableEq, Repr

/-- `boost::any_cast<int16_t>` -/
def any_cast_int16 : AnyValue → Except Exn Int
  | .int16 v => .ok v
  | _ => .error .bad_any_cast

/-- `boost::any_cast<int32_t>` -/
def any_cast_int32 : AnyValue → Except Exn Int
  | .int32 v => .ok v
  | _ => .error .bad_any_cast

/-- `boost::any_cast<int64_t>` -/
def any_cast_int64 : AnyValue → Except Exn Int
  | .int64 v => .ok v
  | _ => .error .bad_any_cast

/-- `boost::any_cast<float>` -/
def any_cast_float : AnyValue → Except Exn Nat
  | .float b => .ok b
  | _ => .error .bad_any_cast

/-- `boost::any_cast<double>` -/
def any_cast_double : AnyValue → Except Exn Nat
  | .double b => .ok b
  | _ => .error .bad_any_cast

/-- `boost::any_cast<crossbow::string>` and `boost::any_cast<const crossbow::string&>`:
the payload must be a string held by value. -/
def any_cast_string : AnyValue → Except Exn (List Nat)
  | .string s => .ok s
  | _ => .error .bad_any_cast

/-- `*boost::any_cast<const crossbow::string*>`: the payload must be a pointer to a
string; the result is the pointee. -/
def any_cast_stringPtr : AnyValue → Except Exn (List Nat)
  | .stringPtr s => .ok s
  | _ => .error .bad_any_cast

/-- IEEE-754 `<` on bit patterns with `m` magnitude bits below the sign bit (`m = 31` for
`float`, `m = 63` for `double`) of which the top `e` are the exponent: false when either
operand is a NaN, otherwise the order of the signed magnitudes (so `-0 < +0` is false). -/
def ieeeLt (m e : Nat) (a b : Nat) : Bool :=
  let inf : Nat := (2 ^ e - 1) * 2 ^ (m - e)
  let isNaN (x : Nat) : Bool := decide (inf < x % 2 ^ m)
  let key (x : Nat) : Int := if x / 2 ^ m % 2 = 1 then -((x % 2 ^ m : Nat) : Int) else ((x % 2 ^ m : Nat) : Int)
  !isNaN a && !isNaN b && decide (key a < key b)

/-- `operator<` of `crossbow::string`: lexicographic order of the bytes. -/
def stringLt : List Nat → List Nat → Bool
  | [], [] => false
  | [], _ :: _ => true
  | _ :: _, [] => false
  | a :: as, b :: bs => if a < b then true else if b < a then false else stringLt as bs

/-- `Field::operator<` -/
def Field.lt (self rhs : Field) : Except Exn Bool :=
  if self.mType ≠ rhs.mType then .error (.invalid_argument .sameTypeOnly)
  else
    match self.mType with
    | .NULLTYPE => .ok false
    | .NOTYPE => .error (.invalid_argument .compareNoType)
    | .SMALLINT => do
        let l ← any_cast_int16 self.mValue
        let r ← any_cast_int16 rhs.mValue
        pure (decide (l < r))
    | .INT => do
        let l ← any_cast_int32 self.mValue
        let r ← any_cast_int32 rhs.mValue
        pure (decide (l < r))
    | .BIGINT => do
        let l ← any_cast_int64 self.mValue
        let r ← any_cast_int64 rhs.mValue
        pure (decide (l < r))
    | .FLOAT => do
        let l ← any_cast_float self.mValue
        let r ← any_cast_float rhs.mValue
        pure (ieeeLt 31 8 l r)
    | .DOUBLE => do
        let l ← any_cast_double self.mValue
        let r ← any_cast_double rhs.mValue
        pure (ieeeLt 63 11 l r)
    | .TEXT => do
        let l ← any_cast_stringPtr self.mValue
        let r ← any_cast_stringPtr rhs.mValue
        pure (stringLt l r)
    | .BLOB => .error (.invalid_argument .compareBlob)

/-- `Field::operator<=`: `*this < rhs || !(rhs < *this)` -/
def Field.le (self rhs : Field) : Except Exn Bool := do
  if (← self.lt rhs) then pure true else pure (!(← rhs.lt self))

/-- `Field::operator>`: `rhs < *this` -/
def Field.gt (self rhs : Field) : Except Exn Bool :=
  rhs.lt self

/-- `Field::operator>=`: `rhs < *this || !(*this < rhs)` -/
def Field.ge (self rhs : Field) : Except Exn Bool := do
  if (← rhs.lt self) then pure true else pure (!(← self.lt rhs))

/-- `Field::operator==`: `!(*this < rhs) && !(rhs < *this)` -/
def Field.eq (self rhs : Field) : Except Exn Bool := do
  if !(← self.lt rhs) then pure (!(← rhs.lt self)) else pure false

/-- Decimal digits of `n` (as character codes), most significant first, put in front of
`acc`. -/
def digitsFuel : Nat → Nat → List Nat → List Nat
  | 0, _, acc => acc
  | fuel + 1, n, acc =>
      if n < 10 then (48 + n) :: acc else digitsFuel fuel (n / 10) ((48 + n % 10) :: acc)

/-- The decimal text of a natural number. -/
def renderNat (n : Nat) : List Nat :=
  digitsFuel (n + 1) n []

/-- The text `boost::lexical_cast` writes for a signed integer: the decimal digits of the
magnitude, after a minus sign when negative. -/
def renderInt (v : Int) : List Nat :=
  if v < 0 then 45 :: renderNat v.natAbs else renderNat v.natAbs

/-- Reads decimal digits into the accumulator; `none` at the first other character. -/
def parseDigits : List Nat → Nat → Option Nat
  | [], acc => some acc
  | c :: cs, acc => if 48 ≤ c ∧ c ≤ 57 then parseDigits cs (acc * 10 + (c - 48)) else none

/-- A non-empty run of decimal digits that is the whole text. -/
def parseNat (s : List Nat) : Option Nat :=
  if s = [] then none else parseDigits s 0

/-- The integer `boost::lexical_cast` reads from a text: an optional `+` or `-`, then a
non-empty run of decimal digits, and nothing else. -/
def parseInt (s : List Nat) : Option Int :=
  match s with
  | [] => none
  | c :: rest =>
      if c = 45 then
        match parseNat rest with
        | some n => some (-(n : Int))
        | none => none
      else if c = 43 then
        match parseNat rest with
        | some n => some (n : Int)
        | none => none
      else
        match parseNat (c :: rest) with
        | some n => some (n : Int)
        | none => none

/-- The value range of a signed integer of `w` bits. -/
def inRange (w : Nat) (v : Int) : Bool :=
  decide (-(2 ^ (w - 1) : Int) ≤ v) && decide (v < (2 ^ (w - 1) : Int))

/-- The part of `boost::lexical_cast` with a floating point source or target. It belongs
to the library, not to the repository, and is a parameter of the embedding:
`conv value target` is the payload of the result or the exception. -/
structure FloatLexicalCast where
  conv : AnyValue → FieldType → Except Exn AnyValue

/-- `boost::lexical_cast<intN_t>(value)` for a source that is an integer or a string:
the value itself, or the value parsed from the text, when it fits the target, and
`bad_lexical_cast` otherwise. -/
def lexical_cast_int (fl : FloatLexicalCast) (w : Nat) (target : FieldType) (mk : Int → AnyValue)
    (value : AnyValue) : Except Exn AnyValue :=
  match value with
  | .int16 v => if inRange w v then .ok (mk v) else .error .bad_lexical_cast
  | .int32 v => if inRange w v then .ok (mk v) else .error .bad_lexical_cast
  | .int64 v => if inRange w v then .ok (mk v) else .error .bad_lexical_cast
  | .string s =>
      match parseInt s with
      | some v => if inRange w v then .ok (mk v) else .error .bad_lexical_cast
      | none => .error .bad_lexical_cast
  | other => fl.conv other target

/-- `boost::lexical_cast<crossbow::string>(value)` -/
def lexical_cast_string (fl : FloatLexicalCast) (value : AnyValue) : Except Exn AnyValue :=
  match value with
  | .int16 v => .ok (.string (renderInt v))
  | .int32 v => .ok (.string (renderInt v))
  | .int64 v => .ok (.string (renderInt v))
  | .string s => .ok (.string s)
  | other => fl.conv other .TEXT

/-- The function template `castTo`; `value` is the typed source value. -/
def castTo (fl : FloatLexicalCast) (value : AnyValue) (target : FieldType) : Except Exn AnyValue :=
  match target with
  | .NULLTYPE => .error .bad_cast
  | .NOTYPE => .error .bad_cast
  | .BLOB => .error .bad_cast
  | .SMALLINT => lexical_cast_int fl 16 .SMALLINT .int16 value
  | .INT => lexical_cast_int fl 32 .INT .int32 value
  | .BIGINT => lexical_cast_int fl 64 .BIGINT .int64 value
  | .FLOAT => fl.conv value .FLOAT
  | .DOUBLE => fl.conv value .DOUBLE
  | .TEXT => lexical_cast_string fl value

/-- `Field::cast` -/
def Field.cast (fl : FloatLexicalCast) (self : Field) (t : FieldType) : Except Exn Field :=
  if t = self.mType then .ok self
  else
    match self.mType with
    | .NULLTYPE => .error .bad_cast
    | .NOTYPE => .error .bad_cast
    | .BLOB => .error .bad_cast
    | .SMALLINT => do
        let v ← any_cast_int16 self.mValue
        let r ← castTo fl (.int16 v) t
        pure ⟨t, r⟩
    | .INT => do
        let v ← any_cast_int32 self.mValue
        let r ← castTo fl (.int32 v) t
        pure ⟨t, r⟩
    | .BIGINT => do
        let v ← any_cast_int64 self.mValue
        let r ← castTo fl (.int64 v) t
        pure ⟨t, r⟩
    | .FLOAT => do
        let v ← any_cast_float self.mValue
        let r ← castTo fl (.float v) t
        pure ⟨t, r⟩
    | .DOUBLE => do
        let v ← any_cast_double self.mValue
        let r ← castTo fl (.double v) t
        pure ⟨t, r⟩
    | .TEXT => do
        let v ← any_cast_string self.mValue
        let r ← castTo fl (.string v) t
        pure ⟨t, r⟩

/-- Memory reachable from the destination pointer: the byte at each offset. -/
abbrev Mem := Nat → Nat

/-- `memcpy(dest + off, src, src.length)` -/
def memcpy (dest : Mem) (off : Nat) (src : List Nat) : Mem :=
  fun i => if off ≤ i ∧ i < off + src.length then src.getD (i - off) 0 else dest i

/-- The object representation of an `n`-byte unsigned value on the little-endian host. -/
def leBytes (n : Nat) (v : Nat) : List Nat :=
  (List.range n).map (fun i => v / 256 ^ i % 256)

/-- The bit pattern of a signed integer of `w` bits (two's complement). -/
def toBits (w : Nat) (v : Int) : Nat :=
  (v % (2 ^ w : Int)).toNat

/-- `Field::serialize`: the returned length and the memory afterwards. The argument
`_type` (the parameter `type`) is not used by the function. -/
def Field.serialize (self : Field) (_type : FieldType) (dest : Mem) : Except Exn (Nat × Mem) :=
  match self.mType with
  | .NULLTYPE => .ok (0, dest)
  | .NOTYPE => .error (.invalid_argument .serializeNoType)
  | .BLOB | .TEXT => do
      let v ← any_cast_string self.mValue
      let sz : Nat := v.length % 2 ^ 32
      let dest1 := memcpy dest 0 (leBytes 4 sz)
      let dest2 := memcpy dest1 4 v
      let res := 4 + v.length
      let res := res + (if res % 8 = 0 then 0 else 8 - res % 8)
      pure (res, dest2)
  | .SMALLINT => do
      let v ← any_cast_int16 self.mValue
      pure (2, memcpy dest 0 (leBytes 2 (toBits 16 v)))
  | .INT => do
      let v ← any_cast_int32 self.mValue
      pure (4, memcpy dest 0 (leBytes 4 (toBits 32 v)))
  | .BIGINT => do
      let v ← any_cast_int64 self.mValue
      pure (8, memcpy dest 0 (leBytes 8 (toBits 64 v)))
  | .FLOAT => do
      let v ← any_cast_float self.mValue
      pure (4, memcpy dest 0 (leBytes 4 v))
  | .DOUBLE => do
      let v ← any_cast_double self.mValue
      pure (8, memcpy dest 0 (leBytes 8 v))

/-- The bytes of `mem` at offsets `off, ..., off + n - 1`. -/
def readBytes (mem : Mem) (off n : Nat) : List Nat :=
  (List.range n).map (fun i => mem (off + i))

/-! ## BdTreeBackend.cpp -/

/-- The field names used by the backend and by the transaction log. -/
inductive FieldName where
  /-- `gPointerFieldName = "pptr"` -/
  | pptr
  /-- `gNodeFieldName = "node"` -/
  | node
  /-- The field `"value"` of the transaction log table. -/
  | value
  deriving DecidableEq, Repr

/-- A `store::GenericTuple`: field names with their values. -/
abbrev GenericTuple := List (FieldName × AnyValue)

/-- The table a store request is addressed to. -/
inductive TableRef where
  /-- `mTable.table()` of a backend table -/
  | table (id : Nat)
  /-- `mContext.clientTable->txTable()` -/
  | txTable
  deriving DecidableEq, Repr

/-- A request sent through the `store::ClientHandle`. For `insert` the last component is
the fifth argument of the call when one is passed. -/
inductive StoreCall where
  | get (table : TableRef) (key : Nat)
  | insert (table : TableRef) (key : Nat) (version : Nat) (tuple : GenericTuple) (flag : Option Bool)
  | update (table : TableRef) (key : Nat) (version : Nat) (tuple : GenericTuple)
  | remove (table : TableRef) (key : Nat) (version : Nat)
  deriving DecidableEq, Repr

/-- The values a `std::error_code` takes in the backend. -/
inductive ErrorCode where
  /-- `bdtree::error::object_doesnt_exist` -/
  | object_doesnt_exist
  /-- `bdtree::error::object_exists` -/
  | object_exists
  /-- `bdtree::error::wrong_version` -/
  | wrong_version
  /-- The `error()` of a store request whose `waitForResult()` is false. -/
  | request (code : Nat)
  deriving DecidableEq, Repr

/-- A `store::Tuple` read from a table with a single field whose value has type `α`. -/
structure StoreTuple (α : Type) where
  found : Bool
  version : Nat
  data : α
  deriving DecidableEq, Repr

/-- The answers of the store to the requests on one table: `Except.error e` when
`waitForResult()` is false with `error() = e`, otherwise the value of `get()`. -/
structure ClientHandle (α : Type) where
  get : Nat → Except ErrorCode (StoreTuple α)
  insert : Nat → Nat → GenericTuple → Bool → Except ErrorCode Bool
  update : Nat → Nat → GenericTuple → Except ErrorCode Bool
  remove : Nat → Nat → Except ErrorCode Bool

/-- The class `BdTreeBaseTable`. -/
structure BdTreeBaseTable (α : Type) where
  mHandle : ClientHandle α
  mTable : Nat

/-- What a backend call leaves behind: the returned value, the error code variable
(`none` when it holds no error) and the store requests issued, in order. -/
structure Outcome (ρ : Type) where
  result : ρ
  ec : Option ErrorCode
  calls : List StoreCall

/-- `bdtree::logical_pointer` -/
structure logical_pointer where
  value : Nat
  deriving DecidableEq, Repr

/-- `bdtree::physical_pointer` -/
structure physical_pointer where
  value : Nat
  deriving DecidableEq, Repr

/-- `std::numeric_limits<uint64_t>::max()` -/
def UINT64_MAX : Nat := 2 ^ 64 - 1

/-- `static_cast<int64_t>` of a `uint64_t`. -/
def static_cast_int64 (p : Nat) : Int :=
  ((((p + 2 ^ 63) % 2 ^ 64 : Nat) : Int)) - 2 ^ 63

/-- `static_cast<uint64_t>` of an `int64_t`. -/
def static_cast_uint64 (v : Int) : Nat :=
  (v % (2 ^ 64 : Int)).toNat

/-- `createPtrTuple` -/
def createPtrTuple (pptr : physical_pointer) : GenericTuple :=
  [(FieldName.pptr, AnyValue.int64 (static_cast_int64 pptr.value))]

/-- `createNodeTuple`; `data` are the `length` bytes at the pointer. -/
def createNodeTuple (data : List Nat) : GenericTuple :=
  [(FieldName.node, AnyValue.string data)]

/-- `BdTreeBaseTable::doRead` -/
def BdTreeBaseTable.doRead {α : Type} (self : BdTreeBaseTable α) (key : Nat) (ec : Option ErrorCode) :
    Outcome (Option (StoreTuple α)) :=
  let calls := [StoreCall.get (.table self.mTable) key]
  match self.mHandle.get key with
  | .error e => ⟨none, some e, calls⟩
  | .ok tuple =>
      if !tuple.found then ⟨none, some .object_doesnt_exist, calls⟩
      else ⟨some tuple, ec, calls⟩

/-- `BdTreeBaseTable::doInsert` -/
def BdTreeBaseTable.doInsert {α : Type} (self : BdTreeBaseTable α) (key : Nat) (tuple : GenericTuple)
    (ec : Option ErrorCode) : Outcome Bool :=
  let calls := [StoreCall.insert (.table self.mTable) key 0 tuple (some true)]
  match self.mHandle.insert key 0 tuple true with
  | .error e => ⟨false, some e, calls⟩
  | .ok r => if !r then ⟨false, some .object_exists, calls⟩ else ⟨true, ec, calls⟩

/-- `BdTreeBaseTable::doUpdate` -/
def BdTreeBaseTable.doUpdate {α : Type} (self : BdTreeBaseTable α) (key : Nat) (tuple : GenericTuple)
    (version : Nat) (ec : Option ErrorCode) : Outcome Bool :=
  let calls := [StoreCall.update (.table self.mTable) key version tuple]
  match self.mHandle.update key version tuple with
  | .error e => ⟨false, some e, calls⟩
  | .ok r => if !r then ⟨false, some .wrong_version, calls⟩ else ⟨true, ec, calls⟩

/-- `BdTreeBaseTable::doRemove` -/
def BdTreeBaseTable.doRemove {α : Type} (self : BdTreeBaseTable α) (key : Nat) (version : Nat)
    (ec : Option ErrorCode) : Outcome Bool :=
  let calls := [StoreCall.remove (.table self.mTable) key version]
  match self.mHandle.remove key version with
  | .error e => ⟨false, some e, calls⟩
  | .ok r => if !r then ⟨false, some .wrong_version, calls⟩ else ⟨true, ec, calls⟩

/-- The class `BdTreePointerTable`: a base table whose single field is the BIGINT `pptr`. -/
abbrev BdTreePointerTable := BdTreeBaseTable Int

/-- What `table.record().data(mTuple->data(), id, isNull, &type)` yields for the node field
of a tuple of the node table: the null flag, the type of the field, and the bytes at the
returned pointer. -/
structure NodeRecord where
  isNull : Bool
  type : FieldType
  field : List Nat
  deriving DecidableEq, Repr

/-- The class `BdTreeNodeTable`: a base table whose single field is the BLOB `node`. -/
abbrev BdTreeNodeTable := BdTreeBaseTable NodeRecord

/-- The members `mSize` and `mData` of a `BdTreeNodeData` built from a tuple; `mData`
is given by the bytes it points to. -/
structure NodeView where
  mSize : Nat
  mData : List Nat
  deriving DecidableEq, Repr

/-- The class `BdTreeNodeData`: `none` is the default constructed object `BdTreeNodeData()`. -/
abbrev BdTreeNodeData := Option NodeView

/-- `*reinterpret_cast<const uint32_t*>(field)` on the little-endian host. -/
def uint32_at (field : List Nat) : Nat :=
  field.getD 0 0 + 256 * field.getD 1 0 + 65536 * field.getD 2 0 + 16777216 * field.getD 3 0

/-- The constructor `BdTreeNodeData(table, id, tuple)`. -/
def BdTreeNodeData.ofTuple (tuple : StoreTuple NodeRecord) : Except Exn BdTreeNodeData :=
  if tuple.data.isNull || tuple.data.type ≠ .BLOB then .error (.logic_error .invalidField)
  else .ok (some ⟨uint32_at tuple.data.field, tuple.data.field.drop 4⟩)

/-- `BdTreePointerTable::read` -/
def BdTreePointerTable.read (self : BdTreePointerTable) (lptr : logical_pointer) (ec : Option ErrorCode) :
    Outcome (physical_pointer × Nat) :=
  let r := self.doRead lptr.value ec
  match r.result with
  | none => ⟨(⟨0⟩, 0), r.ec, r.calls⟩
  | some tuple => ⟨(⟨static_cast_uint64 tuple.data⟩, tuple.version), r.ec, r.calls⟩

/-- `BdTreePointerTable::insert` -/
def BdTreePointerTable.insert (self : BdTreePointerTable) (lptr : logical_pointer) (pptr : physical_pointer)
    (ec : Option ErrorCode) : Outcome Nat :=
  let r := self.doInsert lptr.value (createPtrTuple pptr) ec
  ⟨if r.result then 1 else 0, r.ec, r.calls⟩

/-- `BdTreePointerTable::update`; `version + 1` is computed in `uint64_t`. -/
def BdTreePointerTable.update (self : BdTreePointerTable) (lptr : logical_pointer) (pptr : physical_pointer)
    (version : Nat) (ec : Option ErrorCode) : Outcome Nat :=
  let r := self.doUpdate lptr.value (createPtrTuple pptr) version ec
  ⟨if r.result then (version + 1) % 2 ^ 64 else 0, r.ec, r.calls⟩

/-- `BdTreePointerTable::remove` -/
def BdTreePointerTable.remove (self : BdTreePointerTable) (lptr : logical_pointer) (version : Nat)
    (ec : Option ErrorCode) : Outcome Unit :=
  let version := if version = UINT64_MAX then UINT64_MAX - 2 else version
  let r := self.doRemove lptr.value version ec
  ⟨(), r.ec, r.calls⟩

/-- `BdTreeNodeTable::read`; the result is the returned object or the exception the
constructor of `BdTreeNodeData` throws. -/
def BdTreeNodeTable.read (self : BdTreeNodeTable) (pptr : physical_pointer) (ec : Option ErrorCode) :
    Outcome (Except Exn BdTreeNodeData) :=
  let r := self.doRead pptr.value ec
  match r.result with
  | none => ⟨.ok none, r.ec, r.calls⟩
  | some tuple => ⟨BdTreeNodeData.ofTuple tuple, r.ec, r.calls⟩

/-- `BdTreeNodeTable::insert`; `data` are the `length` bytes at the pointer. -/
def BdTreeNodeTable.insert (self : BdTreeNodeTable) (pptr : physical_pointer) (data : List Nat)
    (ec : Option ErrorCode) : Outcome Unit :=
  let r := self.doInsert pptr.value (createNodeTuple data) ec
  ⟨(), r.ec, r.calls⟩

/-- `BdTreeNodeTable::remove` -/
def BdTreeNodeTable.remove (self : BdTreeNodeTable) (pptr : physical_pointer) (ec : Option ErrorCode) :
    Outcome Unit :=
  let r := self.doRemove pptr.value 1 ec
  ⟨(), r.ec, r.calls⟩

/-! ## Transaction.cpp -/

/-- Modelled from the spec: the enumeration `store::TransactionType` is declared outside
the sources at hand; the code names `READ_WRITE`, the spec names `READ_ONLY`. -/
inductive TransactionType where
  | READ_WRITE
  | READ_ONLY
  deriving DecidableEq, Repr

/-- A call on the `TransactionCache` (`mCache->...`). Table names, schemas, keys, index
names and tuples are passed through unchanged and are represented by identifiers. -/
inductive CacheCall where
  | openTable (name : Nat)
  | createTable (name schema : Nat)
  | get (table key : Nat)
  | lower_bound (tableId idxName key : Nat)
  | reverse_lower_bound (tableId idxName key : Nat)
  | insert (table key tuple : Nat)
  | update (table key fromTuple toTuple : Nat)
  | remove (table key tuple : Nat)
  | undoLog (withIndexes : Bool)
  | writeBack
  | writeIndexes
  | rollback
  deriving DecidableEq, Repr

/-- What a transaction does to its collaborators. -/
inductive Event where
  /-- a call on the transaction cache -/
  | cache (c : CacheCall)
  /-- a request on the store handle -/
  | store (c : StoreCall)
  /-- `mHandle.commit(*mSnapshot)`: the commit manager is told that the snapshot with this
  version is finished -/
  | commit (snapshot : Nat)
  deriving DecidableEq, Repr

/-- The answers of the collaborators of a transaction. -/
structure Env where
  /-- what a cache call returns (an identifier of the returned object) or throws -/
  cache : CacheCall → Except Exn Nat
  /-- the bytes of the undo log `mCache->undoLog(withIndexes)` returns, or what it throws -/
  undoLog : Bool → Except Exn (List Nat)
  /-- `resp->waitForResult()` of the insert into the transaction log table -/
  insertDone : Bool
  /-- whether `LOG_ASSERT` is compiled in -/
  assertsEnabled : Bool
  /-- what `mHandle.commit` throws, if anything -/
  commit : Except Exn Unit

/-- The class `Transaction`: its type, the version of its snapshot, the flag
`mCommitted`, and the trace of what it has done to its collaborators. -/
structure Transaction where
  mType : TransactionType
  mSnapshot : Nat
  mCommitted : Bool
  trace : List Event
  deriving DecidableEq, Repr

/-- Modelled from the spec: the default argument of `writeBack(bool withIndexes)` is
declared in `Transaction.hpp`, which is not at hand; `commit` calls
`writeBack(with_indexes=true)`. -/
def writeBackDefault : Bool := true

/-- Records an event. -/
def Transaction.emit (self : Transaction) (e : Event) : Transaction :=
  { self with trace := self.trace ++ [e] }

/-- The body shared by the delegating member functions: `return mCache->call(...)`. -/
def Transaction.delegate (env : Env) (self : Transaction) (c : CacheCall) : Except Exn Nat × Transaction :=
  (env.cache c, self.emit (.cache c))

/-- `Transaction::openTable` -/
def Transaction.openTable (env : Env) (self : Transaction) (name : Nat) : Except Exn Nat × Transaction :=
  self.delegate env (.openTable name)

/-- `Transaction::createTable` -/
def Transaction.createTable (env : Env) (self : Transaction) (name schema : Nat) :
    Except Exn Nat × Transaction :=
  self.delegate env (.createTable name schema)

/-- `Transaction::get` -/
def Transaction.get (env : Env) (self : Transaction) (table key : Nat) : Except Exn Nat × Transaction :=
  self.delegate env (.get table key)

/-- `Transaction::lower_bound` -/
def Transaction.lower_bound (env : Env) (self : Transaction) (tableId idxName key : Nat) :
    Except Exn Nat × Transaction :=
  self.delegate env (.lower_bound tableId idxName key)

/-- `Transaction::reverse_lower_bound` -/
def Transaction.reverse_lower_bound (env : Env) (self : Transaction) (tableId idxName key : Nat) :
    Except Exn Nat × Transaction :=
  self.delegate env (.reverse_lower_bound tableId idxName key)

/-- `Transaction::insert` -/
def Transaction.insert (env : Env) (self : Transaction) (table key tuple : Nat) :
    Except Exn Nat × Transaction :=
  self.delegate env (.insert table key tuple)

/-- `Transaction::update` -/
def Transaction.update (env : Env) (self : Transaction) (table key fromTuple toTuple : Nat) :
    Except Exn Nat × Transaction :=
  self.delegate env (.update table key fromTuple toTuple)

/-- `Transaction::remove` -/
def Transaction.remove (env : Env) (self : Transaction) (table key tuple : Nat) :
    Except Exn Nat × Transaction :=
  self.delegate env (.remove table key tuple)

/-- `Transaction::writeUndoLog`: one insert into the transaction log table; the result of
waiting for it is only asserted. -/
def Transaction.writeUndoLog (env : Env) (self : Transaction) (log : List Nat) :
    Except Exn Unit × Transaction :=
  let s := self.emit (.store (.insert .txTable self.mSnapshot 0 [(FieldName.value, AnyValue.string log)] none))
  if env.assertsEnabled && !env.insertDone then (.error .assertion, s) else (.ok (), s)

/-- `Transaction::writeBack` -/
def Transaction.writeBack (env : Env) (self : Transaction) (withIndexes : Bool) :
    Except Exn Unit × Transaction :=
  if self.mCommitted then (.error (.logic_error .alreadyCommitted), self)
  else
    let s0 := self.emit (.cache (.undoLog withIndexes))
    match env.undoLog withIndexes with
    | .error e => (.error e, s0)
    | .ok undoLog =>
        if undoLog.length ≠ 0 ∧ self.mType ≠ .READ_WRITE then (.error (.logic_error .readOnly), s0)
        else
          match s0.writeUndoLog env undoLog with
          | (.error e, s1) => (.error e, s1)
          | (.ok (), s1) =>
              let s2 := s1.emit (.cache .writeBack)
              match env.cache .writeBack with
              | .error e => (.error e, s2)
              | .ok _ =>
                  if withIndexes then
                    let s3 := s2.emit (.cache .writeIndexes)
                    match env.cache .writeIndexes with
                    | .error e => (.error e, s3)
                    | .ok _ => (.ok (), s3)
                  else (.ok (), s2)

/-- `Transaction::commit` -/
def Transaction.commit (env : Env) (self : Transaction) : Except Exn Unit × Transaction :=
  match self.writeBack env writeBackDefault with
  | (.error e, s) => (.error e, s)
  | (.ok (), s) =>
      let s1 := s.emit (.commit s.mSnapshot)
      match env.commit with
      | .error e => (.error e, s1)
      | .ok () => (.ok (), { s1 with mCommitted := true })

/-- `Transaction::rollback` -/
def Transaction.rollback (env : Env) (self : Transaction) : Except Exn Unit × Transaction :=
  if self.mCommitted then (.error (.logic_error .alreadyCommitted), self)
  else
    let s0 := self.emit (.cache .rollback)
    match env.cache .rollback with
    | .error e => (.error e, s0)
    | .ok _ =>
        let s1 := s0.emit (.commit s0.mSnapshot)
        match env.commit with
        | .error e => (.error e, s1)
        | .ok () => (.ok (), { s1 with mCommitted := true })

/-- A conversion table for floating point operands that rejects every request; it
stands in where only integers and texts are converted. -/
def FloatLexicalCast.reject : FloatLexicalCast :=
  ⟨fun _ _ => .error .bad_lexical_cast⟩

/-- The payload has the type `Field::operator<` reads for the tag. -/
def Field.ltTyped (f : Field) : Bool :=
  match f.mType, f.mValue with
  | .NULLTYPE, _ => true
  | .SMALLINT, .int16 _ => true
  | .INT, .int32 _ => true
  | .BIGINT, .int64 _ => true
  | .FLOAT, .float _ => true
  | .DOUBLE, .double _ => true
  | .TEXT, .stringPtr _ => true
  | _, _ => false

/-- The payload has the type `Field::cast` and `Field::serialize` read for the tag. -/
def Field.wellTyped (f : Field) : Bool :=
  match f.mType, f.mValue with
  | .NULLTYPE, _ => true
  | .NOTYPE, _ => true
  | .SMALLINT, .int16 _ => true
  | .INT, .int32 _ => true
  | .BIGINT, .int64 _ => true
  | .FLOAT, .float _ => true
  | .DOUBLE, .double _ => true
  | .TEXT, .string _ => true
  | .BLOB, .string _ => true
  | _, _ => false

/-- Exactly one of three truth values is true. -/
def exactlyOne (x y z : Bool) : Bool :=
  (x && !y && !z) || (!x && y && !z) || (!x && !y && z)

/-- The tags `cast` cannot convert from or to. -/
def FieldType.noCast (t : FieldType) : Bool :=
  t = .NULLTYPE || t = .NOTYPE || t = .BLOB

/-- The integer tags and TEXT. -/
def FieldType.intOrText (t : FieldType) : Bool :=
  t = .SMALLINT || t = .INT || t = .BIGINT || t = .TEXT

/-- Collaborators that accept every call: the cache returns the object 0, the undo
log is empty, the store and the commit manager succeed. -/
def Env.allOk : Env :=
  ⟨fun _ => .ok 0, fun _ => .ok [], true, false, .ok ()⟩

/-- Collaborators of a transaction whose cache has pending changes: the undo log is the
three bytes 1, 2, 3; everything else succeeds. -/
def Env.pending : Env :=
  ⟨fun _ => .ok 0, fun _ => .ok [1, 2, 3], true, false, .ok ()⟩

/-- A store handle for a pointer table with fixed answers to update and remove; reads
find nothing and inserts are accepted. -/
def ClientHandle.fixed (upd rem : Except ErrorCode Bool) : ClientHandle Int :=
  ⟨fun _ => .ok ⟨false, 0, 0⟩, fun _ _ _ _ => .ok true, fun _ _ _ => upd, fun _ _ => rem⟩

/-- A store handle that gives the same answer to every request of a kind. -/
def ClientHandle.answering {α : Type} (get : Except ErrorCode (StoreTuple α))
    (ins upd rem : Except ErrorCode Bool) : ClientHandle α :=
  ⟨fun _ => get, fun _ _ _ _ => ins, fun _ _ _ => upd, fun _ _ => rem⟩

/-- Collaborators of a transaction with pending changes whose cache raises the exception
`thrown code` while it replays the writes; everything else succeeds. -/
def Env.writeBackFails (code : Nat) : Env :=
  ⟨fun c => if c = .writeBack then .error (.thrown code) else .ok 0, fun _ => .ok [1, 2, 3], true, false,
    .ok ()⟩

/-- Collaborators of a transaction whose cache raises the exception `thrown code` in
`rollback`; everything else succeeds. -/
def Env.rollbackFails (code : Nat) : Env :=
  ⟨fun c => if c = .rollback then .error (.thrown code) else .ok 0, fun _ => .ok [], true, false,
    .ok ()⟩

/-- Collaborators of a transaction whose commit manager raises the exception
`thrown code` when it is notified; everything else succeeds. -/
def Env.commitManagerFails (code : Nat) : Env :=
  ⟨fun _ => .ok 0, fun _ => .ok [], true, false, .error (.thrown code)⟩

/-- The width in bits of an integer tag. -/
def FieldType.intWidth : FieldType → Option Nat
  | .SMALLINT => some 16
  | .INT => some 32
  | .BIGINT => some 64
  | _ => none

/-- The payload of a field with an integer tag. -/
def FieldType.intPayload : FieldType → Int → AnyValue
  | .SMALLINT, v => .int16 v
  | .INT, v => .int32 v
  | .BIGINT, v => .int64 v
  | _, _ => .empty

/-- The text of a field with an integer tag or TEXT: the decimal form of the integer, or
the text itself. -/
def Field.text (f : Field) : Option (List Nat) :=
  match f.mType, f.mValue with
  | .SMALLINT, .int16 v => some (renderInt v)
  | .INT, .int32 v => some (renderInt v)
  | .BIGINT, .int64 v => some (renderInt v)
  | .TEXT, .string s => some s
  | _, _ => none

/-- The cast between integer tags and TEXT as the specification words it: render the
source to its text, then parse the text into the target type; a text that is not a
decimal integer of the target range fails with a bad cast. Defined for sources with an
integer tag or TEXT whose payload agrees with the tag. -/
def specCastViaText (f : Field) (t : FieldType) : Option (Except Exn Field) :=
  match f.text with
  | none => none
  | some text =>
      if t = .TEXT then some (.ok ⟨.TEXT, .string text⟩)
      else
        match t.intWidth with
        | none => none
        | some w =>
            match parseInt text with
            | some v => if inRange w v then some (.ok ⟨t, t.intPayload v⟩) else some (.error .bad_lexical_cast)
            | none => some (.error .bad_lexical_cast)

/-! ## Lemmas -/

theorem stringLt_asymm : ∀ a b : List Nat, stringLt a b = true → stringLt b a = false
  | [], [], h => by simp [stringLt] at h
  | [], _ :: _, _ => by simp [stringLt]
  | _ :: _, [], h => by simp [stringLt] at h
  | x :: xs, y :: ys, h => by
      simp only [stringLt] at h ⊢
      by_cases hxy : x < y
      · have : ¬ y < x := by omega
        simp [this, hxy]
      · by_cases hyx : y < x
        · simp [hxy, hyx] at h
        · simp only [hxy, hyx, if_false] at h ⊢
          exact stringLt_asymm xs ys h

theorem exactlyOne_of_asymm (x z : Bool) (h : x = true → z = false) :
    exactlyOne x (if !x then !z else false) z = true := by
  cases x <;> cases z <;> simp_all [exactlyOne]

theorem digitsFuel_append : ∀ (fuel n : Nat) (acc : List Nat),
    digitsFuel fuel n acc = digitsFuel fuel n [] ++ acc
  | 0, _, acc => by simp [digitsFuel]
  | fuel + 1, n, acc => by
      simp only [digitsFuel]
      split
      · simp
      · rw [digitsFuel_append fuel (n / 10) ((48 + n % 10) :: acc),
          digitsFuel_append fuel (n / 10) [48 + n % 10]]
        simp

theorem parseDigits_append : ∀ (xs ys : List Nat) (a : Nat),
    parseDigits (xs ++ ys) a = (parseDigits xs a).bind (fun v => parseDigits ys v)
  | [], ys, a => by simp [parseDigits]
  | c :: cs, ys, a => by
      simp only [List.cons_append, parseDigits]
      split
      · exact parseDigits_append cs ys _
      · rfl

theorem parseDigits_digitsFuel : ∀ (fuel n : Nat), n < fuel →
    parseDigits (digitsFuel fuel n []) 0 = some n
  | 0, _, h => by omega
  | fuel + 1, n, h => by
      simp only [digitsFuel]
      split
      · rename_i h10
        have h1 : 48 ≤ 48 + n ∧ 48 + n ≤ 57 := by omega
        simp [parseDigits, h1]
      · rename_i h10
        rw [digitsFuel_append, parseDigits_append, parseDigits_digitsFuel fuel (n / 10) (by omega)]
        have h1 : 48 ≤ 48 + n % 10 ∧ 48 + n % 10 ≤ 57 := by omega
        simp only [Option.some_bind, parseDigits, h1, and_self, if_true]
        congr 1
        omega

theorem digitsFuel_ne_nil (fuel n : Nat) (acc : List Nat) (h : 0 < fuel) : digitsFuel fuel n acc ≠ [] := by
  obtain ⟨k, rfl⟩ : ∃ k, fuel = k + 1 := ⟨fuel - 1, by omega⟩
  simp only [digitsFuel]
  split
  · simp
  · rw [digitsFuel_append]
    simp

theorem parseNat_renderNat (n : Nat) : parseNat (renderNat n) = some n := by
  unfold parseNat renderNat
  rw [if_neg (digitsFuel_ne_nil _ _ _ (by omega))]
  exact parseDigits_digitsFuel _ _ (by omega)

theorem parseNat_head {c : Nat} {cs : List Nat} {n : Nat} (h : parseNat (c :: cs) = some n) :
    48 ≤ c := by
  simp only [parseNat, parseDigits] at h
  by_contra hc
  have : ¬ (48 ≤ c ∧ c ≤ 57) := fun hh => hc hh.1
  simp [this] at h

theorem parseInt_renderInt (v : Int) : parseInt (renderInt v) = some v := by
  unfold renderInt
  split
  · rename_i hneg
    simp only [parseInt, if_true, parseNat_renderNat]
    congr 1
    omega
  · rename_i hneg
    have hp := parseNat_renderNat v.natAbs
    cases hr : renderNat v.natAbs with
    | nil => rw [hr] at hp; simp [parseNat] at hp
    | cons c cs =>
        rw [hr] at hp
        have hc := parseNat_head hp
        have h45 : c ≠ 45 := by omega
        have h43 : c ≠ 43 := by omega
        simp only [parseInt, h45, h43, if_false, hp]
        congr 1
        omega

theorem ieeeLt_asymm (m e a b : Nat) (h : ieeeLt m e a b = true) : ieeeLt m e b a = false := by
  unfold ieeeLt at h ⊢
  simp only [Bool.and_eq_true, Bool.not_eq_true', decide_eq_true_eq, decide_eq_false_iff_not] at h
  obtain ⟨⟨ha, hb⟩, hlt⟩ := h
  have : ¬ ((if b / 2 ^ m % 2 = 1 then -((b % 2 ^ m : Nat) : Int) else ((b % 2 ^ m : Nat) : Int))
      < (if a / 2 ^ m % 2 = 1 then -((a % 2 ^ m : Nat) : Int) else ((a % 2 ^ m : Nat) : Int))) := by
    omega
  simp only [decide_eq_false this, Bool.and_false]

theorem intLt_asymm (l r : Int) (h : decide (l < r) = true) : decide (r < l) = false := by
  simp only [decide_eq_true_eq, decide_eq_false_iff_not] at h ⊢
  omega

theorem Field.lt_asymm (a b : Field) (ht : a.mType = b.mType) (ha : a.ltTyped = true)
    (hb : b.ltTyped = true) :
    ∃ x z, a.lt b = .ok x ∧ b.lt a = .ok z ∧ (x = true → z = false) := by
  obtain ⟨ta, va⟩ := a
  obtain ⟨tb, vb⟩ := b
  simp only at ht
  subst ht
  cases ta <;> cases va <;> simp [Field.ltTyped] at ha <;> cases vb <;> simp [Field.ltTyped] at hb <;>
    simp only [Field.lt, ne_eq, not_true_eq_false, if_false, any_cast_int16, any_cast_int32,
      any_cast_int64, any_cast_float, any_cast_double, any_cast_stringPtr, bind, Except.bind, pure,
      Except.pure] <;>
    first
      | exact ⟨false, false, rfl, rfl, fun _ => rfl⟩
      | exact ⟨_, _, rfl, rfl, intLt_asymm _ _⟩
      | exact ⟨_, _, rfl, rfl, ieeeLt_asymm _ _ _ _⟩
      | exact ⟨_, _, rfl, rfl, stringLt_asymm _ _⟩

theorem Field.trichotomy (a b : Field) (ht : a.mType = b.mType) (ha : a.ltTyped = true)
    (hb : b.ltTyped = true) :
    ∃ x y z, a.lt b = .ok x ∧ a.eq b = .ok y ∧ a.gt b = .ok z ∧ exactlyOne x y z = true := by
  obtain ⟨x, z, hx, hz, hxz⟩ := Field.lt_asymm a b ht ha hb
  refine ⟨x, (if !x then !z else false), z, hx, ?_, hz, exactlyOne_of_asymm x z hxz⟩
  simp only [Field.eq, hx, hz, bind, Except.bind, pure, Except.pure]
  cases x <;> rfl

theorem padded_length (k : Nat) :
    (k + (if k % 8 = 0 then 0 else 8 - k % 8)) % 8 = 0 ∧
    k ≤ k + (if k % 8 = 0 then 0 else 8 - k % 8) ∧
    k + (if k % 8 = 0 then 0 else 8 - k % 8) < k + 8 := by
  split <;> omega

theorem readBytes_memcpy (mem : Mem) (off : Nat) (s : List Nat) :
    readBytes (memcpy mem off s) off s.length = s := by
  apply List.ext_getElem
  · simp [readBytes]
  · intro i h1 h2
    simp only [readBytes, List.getElem_map, List.getElem_range, memcpy]
    have hi : i < s.length := h2
    have hc : off ≤ off + i ∧ off + i < off + s.length := by omega
    rw [if_pos hc]
    have : off + i - off = i := by omega
    rw [this, List.getD_eq_getElem _ _ hi]

theorem BdTreeBaseTable.doRemove_calls {α : Type} (self : BdTreeBaseTable α) (key version : Nat)
    (ec : Option ErrorCode) :
    (self.doRemove key version ec).calls = [StoreCall.remove (.table self.mTable) key version] := by
  simp only [BdTreeBaseTable.doRemove]
  split <;> (try split) <;> rfl

theorem BdTreeBaseTable.doUpdate_calls {α : Type} (self : BdTreeBaseTable α) (key : Nat)
    (tuple : GenericTuple) (version : Nat) (ec : Option ErrorCode) :
    (self.doUpdate key tuple version ec).calls =
      [StoreCall.update (.table self.mTable) key version tuple] := by
  simp only [BdTreeBaseTable.doUpdate]
  split <;> (try split) <;> rfl

theorem BdTreeBaseTable.doInsert_calls {α : Type} (self : BdTreeBaseTable α) (key : Nat)
    (tuple : GenericTuple) (ec : Option ErrorCode) :
    (self.doInsert key tuple ec).calls =
      [StoreCall.insert (.table self.mTable) key 0 tuple (some true)] := by
  simp only [BdTreeBaseTable.doInsert]
  split <;> (try split) <;> rfl

theorem BdTreeBaseTable.doRead_calls {α : Type} (self : BdTreeBaseTable α) (key : Nat)
    (ec : Option ErrorCode) :
    (self.doRead key ec).calls = [StoreCall.get (.table self.mTable) key] := by
  simp only [BdTreeBaseTable.doRead]
  split <;> (try split) <;> rfl

/-- With different tags each of the five comparison operators throws
`std::invalid_argument("Can only compare fields of same type")`. -/
theorem Field.compare_tag_mismatch (a b : Field) (h : a.mType ≠ b.mType) :
    a.lt b = .error (.invalid_argument .sameTypeOnly) ∧
    a.le b = .error (.invalid_argument .sameTypeOnly) ∧
    a.gt b = .error (.invalid_argument .sameTypeOnly) ∧
    a.ge b = .error (.invalid_argument .sameTypeOnly) ∧
    a.eq b = .error (.invalid_argument .sameTypeOnly) := by
  have h1 : a.lt b = .error (.invalid_argument .sameTypeOnly) := by simp [Field.lt, h]
  have h2 : b.lt a = .error (.invalid_argument .sameTypeOnly) := by
    have h' : b.mType ≠ a.mType := fun e => h e.symm
    simp [Field.lt, h']
  simp [Field.le, Field.gt, Field.ge, Field.eq, h1, h2, bind, Except.bind]

/-- With equal tags BLOB or NOTYPE each of the five comparison operators throws the
`std::invalid_argument` of an unorderable tag. -/
theorem Field.compare_unorderable (a b : Field) (h : a.mType = b.mType)
    (hu : a.mType = .BLOB ∨ a.mType = .NOTYPE) :
    ∃ w, (w = What.compareBlob ∨ w = What.compareNoType) ∧
      a.lt b = .error (.invalid_argument w) ∧
      a.le b = .error (.invalid_argument w) ∧
      a.gt b = .error (.invalid_argument w) ∧
      a.ge b = .error (.invalid_argument w) ∧
      a.eq b = .error (.invalid_argument w) := by
  obtain ⟨ta, va⟩ := a
  obtain ⟨tb, vb⟩ := b
  simp only at h hu
  subst h
  rcases hu with rfl | rfl
  · exact ⟨.compareBlob, Or.inl rfl, by simp [Field.lt, Field.le, Field.gt, Field.ge, Field.eq, bind, Except.bind]⟩
  · exact ⟨.compareNoType, Or.inr rfl, by simp [Field.lt, Field.le, Field.gt, Field.ge, Field.eq, bind, Except.bind]⟩

/-- With equal tags and payloads of the type `operator<` reads, each of the five
comparison operators returns a truth value. -/
theorem Field.compare_succeeds (a b : Field) (ht : a.mType = b.mType) (ha : a.ltTyped = true)
    (hb : b.ltTyped = true) :
    ∃ x z, a.lt b = .ok x ∧ a.gt b = .ok z ∧ a.le b = .ok (x || !z) ∧ a.ge b = .ok (z || !x) ∧
      a.eq b = .ok (!x && !z) := by
  obtain ⟨x, z, hx, hz, _⟩ := Field.lt_asymm a b ht ha hb
  refine ⟨x, z, hx, hz, ?_, ?_, ?_⟩ <;>
    simp only [Field.le, Field.ge, Field.eq, hx, hz, bind, Except.bind, pure, Except.pure] <;>
    cases x <;> cases z <;> rfl

/-- `writeUndoLog` only adds to the trace. -/
theorem Transaction.writeUndoLog_frame (env : Env) (self : Transaction) (log : List Nat) :
    (self.writeUndoLog env log).2.mCommitted = self.mCommitted ∧
    (self.writeUndoLog env log).2.mType = self.mType ∧
    (self.writeUndoLog env log).2.mSnapshot = self.mSnapshot := by
  simp only [Transaction.writeUndoLog, Transaction.emit]
  split <;> simp

/-- `writeBack` only adds to the trace: the flag, the type and the snapshot stay. -/
theorem Transaction.writeBack_frame (env : Env) (self : Transaction) (w : Bool) :
    (self.writeBack env w).2.mCommitted = self.mCommitted ∧
    (self.writeBack env w).2.mType = self.mType ∧
    (self.writeBack env w).2.mSnapshot = self.mSnapshot := by
  unfold Transaction.writeBack
  split
  · simp
  · simp only
    split
    · simp [Transaction.emit]
    · split
      · simp [Transaction.emit]
      · rename_i log _ _
        have hf := Transaction.writeUndoLog_frame env (self.emit (.cache (.undoLog w))) log
        split
        · rename_i e s1 heq
          rw [heq] at hf
          simpa [Transaction.emit] using hf
        · rename_i s1 heq
          rw [heq] at hf
          simp only at hf
          split
          · simpa [Transaction.emit] using hf
          · split
            · split <;> simpa [Transaction.emit] using hf
            · simpa [Transaction.emit] using hf

/-- A successful `commit` sets the flag. -/
theorem Transaction.commit_ok_committed (env : Env) (self s : Transaction)
    (h : self.commit env = (.ok (), s)) : s.mCommitted = true := by
  unfold Transaction.commit at h
  split at h
  · simp at h
  · simp only at h
    split at h
    · simp at h
    · simp only [Prod.mk.injEq, true_and] at h
      rw [← h]

/-- A successful `rollback` sets the flag. -/
theorem Transaction.rollback_ok_committed (env : Env) (self s : Transaction)
    (h : self.rollback env = (.ok (), s)) : s.mCommitted = true := by
  unfold Transaction.rollback at h
  split at h
  · simp at h
  · simp only at h
    split at h
    · simp at h
    · split at h
      · simp at h
      · simp only [Prod.mk.injEq, true_and] at h
        rw [← h]

/-- On a transaction whose flag is set, `commit` and `rollback` throw and change nothing. -/
theorem Transaction.finished_absorbs (env : Env) (s : Transaction) (h : s.mCommitted = true) :
    s.commit env = (.error (.logic_error .alreadyCommitted), s) ∧
    s.rollback env = (.error (.logic_error .alreadyCommitted), s) := by
  constructor
  · simp [Transaction.commit, Transaction.writeBack, h]
  · simp [Transaction.rollback, h]

/-- The signed reading of a 64-bit pattern: the value itself below `2^63`, the value
minus `2^64` from `2^63` on; it is always in the range of `int64_t`. -/
theorem static_cast_int64_eq (p : Nat) (hp : p < 2 ^ 64) :
    (p < 2 ^ 63 → static_cast_int64 p = p) ∧
    (2 ^ 63 ≤ p → static_cast_int64 p = (p : Int) - 2 ^ 64) ∧
    -(2 ^ 63 : Int) ≤ static_cast_int64 p ∧ static_cast_int64 p < 2 ^ 63 := by
  unfold static_cast_int64
  norm_num at hp ⊢
  omega

/-- Reading a signed 64-bit value as unsigned undoes the signed reading. -/
theorem static_cast_uint64_int64 (p : Nat) (hp : p < 2 ^ 64) :
    static_cast_uint64 (static_cast_int64 p) = p := by
  unfold static_cast_uint64 static_cast_int64
  norm_num at hp ⊢
  omega

/-! ## Field: comparison -/

/-- C1 (evaluation at the failing input): the TEXT fields that `cast` produces from
INT 1 and INT 2 hold their text as a string by value, while `operator<` reads the TEXT
payload as a pointer to a string. On these two same-tag TEXT fields `a<b`, `a==b` and
`a>b` all raise `bad_any_cast`, so none of the three holds. -/
theorem C1_text_fields_from_cast_do_not_compare :
    ∃ a b : Field,
      Field.cast FloatLexicalCast.reject ⟨.INT, .int32 1⟩ .TEXT = .ok a ∧
      Field.cast FloatLexicalCast.reject ⟨.INT, .int32 2⟩ .TEXT = .ok b ∧
      a.mType = .TEXT ∧ b.mType = .TEXT ∧
      a.lt b = .error .bad_any_cast ∧
      a.eq b = .error .bad_any_cast ∧
      a.gt b = .error .bad_any_cast :=
  ⟨⟨.TEXT, .string [49]⟩, ⟨.TEXT, .string [50]⟩, by decide, by decide, rfl, rfl, by decide, by decide,
    by decide⟩

/-- C2 (counterexample): serializing TEXT "abc" into a buffer whose bytes are all 0xFF
returns 8 and leaves `03 00 00 00 61 62 63 FF`: the padding byte is not zero. -/
theorem C2_counterexample_padding_not_zeroed :
    ((Field.mk .TEXT (.string [97, 98, 99])).serialize .TEXT (fun _ => 255)).map
        (fun r => (r.1, readBytes r.2 0 r.1)) = .ok (8, [3, 0, 0, 0, 97, 98, 99, 255]) := by
  decide

/-- C2 (amended): for a TEXT or BLOB field holding the bytes `s` with `|s| < 2^31`, and any
initial memory, `serialize` succeeds; afterwards bytes 0..3 are `|s|` in little-endian
order, the next `|s|` bytes are `s`, the returned length is the least multiple of 8 that
is at least `4 + |s|`, and every byte from offset `4 + |s|` on, the padding included,
keeps the value it had before the call. -/
theorem C2_serialize_text_blob (f : Field) (type : FieldType) (dest : Mem) (s : List Nat)
    (ht : f.mType = .TEXT ∨ f.mType = .BLOB) (hv : f.mValue = .string s) (hn : s.length < 2 ^ 31) :
    ∃ n mem, f.serialize type dest = .ok (n, mem) ∧
      readBytes mem 0 4 =
        [s.length % 256, s.length / 256 % 256, s.length / 65536 % 256, s.length / 16777216 % 256] ∧
      readBytes mem 4 s.length = s ∧
      n % 8 = 0 ∧ 4 + s.length ≤ n ∧ n < 4 + s.length + 8 ∧
      ∀ i, 4 + s.length ≤ i → mem i = dest i := by
  obtain ⟨t, v⟩ := f
  simp only at ht hv
  subst hv
  have hsz : s.length % 2 ^ 32 = s.length := Nat.mod_eq_of_lt (by omega)
  have hp := padded_length (4 + s.length)
  refine ⟨4 + s.length + (if (4 + s.length) % 8 = 0 then 0 else 8 - (4 + s.length) % 8),
    memcpy (memcpy dest 0 (leBytes 4 (s.length % 2 ^ 32))) 4 s, ?_, ?_, readBytes_memcpy _ _ _,
    hp.1, hp.2.1, hp.2.2, ?_⟩
  · rcases ht with h | h <;> subst h <;> rfl
  · rw [hsz]
    simp [readBytes, memcpy, leBytes, List.range, List.range.loop]
  · intro i hi
    have h1 : ¬ (4 ≤ i ∧ i < 4 + s.length) := by omega
    have h2 : ¬ (0 ≤ i ∧ i < 0 + (leBytes 4 (s.length % 2 ^ 32)).length) := by
      simp [leBytes]
      omega
    simp only [memcpy, if_neg h1, if_neg h2]

/-- C2 (witness): the amended statement at BLOB `01 02 03 04 05` and a buffer of sevens. -/
theorem C2_serialize_text_blob_witness :
    ∃ n mem, (Field.mk .BLOB (.string [1, 2, 3, 4, 5])).serialize .BLOB (fun _ => 7) = .ok (n, mem) ∧
      readBytes mem 0 4 = [5, 0, 0, 0] ∧ readBytes mem 4 5 = [1, 2, 3, 4, 5] ∧
      n % 8 = 0 ∧ 9 ≤ n ∧ n < 17 ∧ ∀ i, 9 ≤ i → mem i = 7 :=
  C2_serialize_text_blob ⟨.BLOB, .string [1, 2, 3, 4, 5]⟩ .BLOB (fun _ => 7) [1, 2, 3, 4, 5]
    (Or.inr rfl) rfl (by decide)

/-! ## Field: cast -/

/-- C4 (counterexample): after a successful rollback the transaction is terminal, and a
`get` on it is still passed to the cache and returns the answer of the cache. -/
theorem C4_counterexample_get_after_rollback :
    ((⟨.READ_WRITE, 1, false, []⟩ : Transaction).rollback Env.allOk).1 = .ok () ∧
    ((⟨.READ_WRITE, 1, false, []⟩ : Transaction).rollback Env.allOk).2.mCommitted = true ∧
    (((⟨.READ_WRITE, 1, false, []⟩ : Transaction).rollback Env.allOk).2.get Env.allOk 3 7).1 = .ok 0 ∧
    (((⟨.READ_WRITE, 1, false, []⟩ : Transaction).rollback Env.allOk).2.get Env.allOk 3 7).2.trace =
      [.cache .rollback, .commit 1, .cache (.get 3 7)] := by
  decide

/-- C4 (amended): on a terminal transaction (`mCommitted` set) `commit` and `rollback`
fail with the logic error "Transaction has already committed" and do nothing else; each
of get, insert, update, remove, openTable, createTable, lower_bound and
reverse_lower_bound makes exactly one call on the cache and returns what the cache
returns. -/
theorem C4_terminal_operations (env : Env) (self : Transaction) (hterm : self.mCommitted = true) :
    self.commit env = (.error (.logic_error .alreadyCommitted), self) ∧
    self.rollback env = (.error (.logic_error .alreadyCommitted), self) ∧
    (∀ table key, self.get env table key = (env.cache (.get table key), self.emit (.cache (.get table key)))) ∧
    (∀ table key tuple, self.insert env table key tuple =
      (env.cache (.insert table key tuple), self.emit (.cache (.insert table key tuple)))) ∧
    (∀ table key a b, self.update env table key a b =
      (env.cache (.update table key a b), self.emit (.cache (.update table key a b)))) ∧
    (∀ table key tuple, self.remove env table key tuple =
      (env.cache (.remove table key tuple), self.emit (.cache (.remove table key tuple)))) ∧
    (∀ name, self.openTable env name = (env.cache (.openTable name), self.emit (.cache (.openTable name)))) ∧
    (∀ name schema, self.createTable env name schema =
      (env.cache (.createTable name schema), self.emit (.cache (.createTable name schema)))) ∧
    (∀ tableId idxName key, self.lower_bound env tableId idxName key =
      (env.cache (.lower_bound tableId idxName key), self.emit (.cache (.lower_bound tableId idxName key)))) ∧
    (∀ tableId idxName key, self.reverse_lower_bound env tableId idxName key =
      (env.cache (.reverse_lower_bound tableId idxName key),
        self.emit (.cache (.reverse_lower_bound tableId idxName key)))) := by
  refine ⟨?_, ?_, ?_, ?_, ?_, ?_, ?_, ?_, ?_, ?_⟩
  · simp [Transaction.commit, Transaction.writeBack, hterm]
  · simp [Transaction.rollback, hterm]
  all_goals intros; rfl

/-- C4 (witness): commit and rollback on a transaction that has finished. -/
theorem C4_terminal_operations_witness :
    (⟨.READ_WRITE, 1, true, []⟩ : Transaction).commit Env.allOk =
      (.error (.logic_error .alreadyCommitted), ⟨.READ_WRITE, 1, true, []⟩) ∧
    (⟨.READ_WRITE, 1, true, []⟩ : Transaction).rollback Env.allOk =
      (.error (.logic_error .alreadyCommitted), ⟨.READ_WRITE, 1, true, []⟩) :=
  ⟨(C4_terminal_operations Env.allOk ⟨.READ_WRITE, 1, true, []⟩ rfl).1,
   (C4_terminal_operations Env.allOk ⟨.READ_WRITE, 1, true, []⟩ rfl).2.1⟩

/-! ## Pointer table -/

/-- C5: `BdTreePointerTable::remove(lptr, v)` issues exactly one store request, a remove
for key `lptr` on its table, with expected version `UINT64_MAX - 2` when
`v = UINT64_MAX` and `v` otherwise. -/
theorem C5_pointer_remove_version (self : BdTreePointerTable) (lptr : logical_pointer) (v : Nat)
    (ec : Option ErrorCode) :
    (BdTreePointerTable.remove self lptr v ec).calls =
      [StoreCall.remove (.table self.mTable) lptr.value
        (if v = 18446744073709551615 then 18446744073709551613 else v)] := by
  simp only [BdTreePointerTable.remove, BdTreeBaseTable.doRemove_calls, UINT64_MAX]
  by_cases h : v = 18446744073709551615
  · subst h
    rfl
  · have h2 : ¬ v = 2 ^ 64 - 1 := by
      norm_num
      exact h
    rw [if_neg h, if_neg h2]

/-- C6 (counterexample): an update at version `UINT64_MAX` that the store accepts
returns 0 and sets no error code; 0 is not `UINT64_MAX + 1`. -/
theorem C6_counterexample_version_wraps :
    (BdTreePointerTable.update ⟨ClientHandle.fixed (.ok true) (.ok true), 0⟩ ⟨5⟩ ⟨10⟩
      18446744073709551615 none).result = 0 ∧
    (BdTreePointerTable.update ⟨ClientHandle.fixed (.ok true) (.ok true), 0⟩ ⟨5⟩ ⟨10⟩
      18446744073709551615 none).ec = none ∧
    (0 : Nat) ≠ 18446744073709551615 + 1 := by
  decide

/-- C6 (amended): `BdTreePointerTable::update(lptr, pptr, v)` issues exactly one store
request, an update for key `lptr` with expected version `v` and the tuple
`{pptr}`. When the store accepts it the call returns `v + 1` computed in 64 bits (so
`v + 1` for `v < UINT64_MAX`, and 0 for `v = UINT64_MAX`) and leaves the error code as it
was; when the store reports a mismatch it returns 0 and sets `wrong_version`. -/
theorem C6_pointer_update (self : BdTreePointerTable) (lptr : logical_pointer) (pptr : physical_pointer)
    (v : Nat) (ec : Option ErrorCode) :
    (BdTreePointerTable.update self lptr pptr v ec).calls =
      [StoreCall.update (.table self.mTable) lptr.value v (createPtrTuple pptr)] ∧
    (self.mHandle.update lptr.value v (createPtrTuple pptr) = .ok true →
      (BdTreePointerTable.update self lptr pptr v ec).result = (v + 1) % 2 ^ 64 ∧
      (BdTreePointerTable.update self lptr pptr v ec).ec = ec ∧
      (v < 2 ^ 64 - 1 → (BdTreePointerTable.update self lptr pptr v ec).result = v + 1)) ∧
    (self.mHandle.update lptr.value v (createPtrTuple pptr) = .ok false →
      (BdTreePointerTable.update self lptr pptr v ec).result = 0 ∧
      (BdTreePointerTable.update self lptr pptr v ec).ec = some .wrong_version) := by
  refine ⟨?_, ?_, ?_⟩
  · simp only [BdTreePointerTable.update, BdTreeBaseTable.doUpdate_calls]
  · intro h
    simp only [BdTreePointerTable.update, BdTreeBaseTable.doUpdate, h]
    refine ⟨by simp, by simp, fun hv => ?_⟩
    simp
    omega
  · intro h
    simp [BdTreePointerTable.update, BdTreeBaseTable.doUpdate, h]

/-! ## Field: serialized length -/

/-- C7 (counterexample): BIGINT 1 serializes to 8 bytes; 8 is a multiple of 8 although
the tag is neither TEXT nor BLOB. -/
theorem C7_counterexample_bigint :
    ((Field.mk .BIGINT (.int64 1)).serialize .BIGINT (fun _ => 0)).map
        (fun r => (r.1, readBytes r.2 0 r.1)) = .ok (8, [1, 0, 0, 0, 0, 0, 0, 0]) ∧
    8 % 8 = 0 ∧ FieldType.BIGINT ≠ .TEXT ∧ FieldType.BIGINT ≠ .BLOB := by
  decide

/-- C7 (amended): for a field whose payload agrees with its tag and whose tag is not
NOTYPE, `serialize` succeeds and returns: a multiple of 8 (at least 8) for TEXT and BLOB,
0 for NULL, 2 for SMALLINT, 4 for INT, 8 for BIGINT, 4 for FLOAT, 8 for DOUBLE. So the
length is a multiple of 8 exactly when the tag is not SMALLINT, INT or FLOAT. -/
theorem C7_serialize_length (f : Field) (type : FieldType) (dest : Mem)
    (hw : f.wellTyped = true) (hn : f.mType ≠ .NOTYPE) :
    ∃ n mem, f.serialize type dest = .ok (n, mem) ∧
      (f.mType = .TEXT ∨ f.mType = .BLOB → n % 8 = 0 ∧ 8 ≤ n) ∧
      (f.mType = .NULLTYPE → n = 0) ∧
      (f.mType = .SMALLINT → n = 2) ∧
      (f.mType = .INT → n = 4) ∧
      (f.mType = .BIGINT → n = 8) ∧
      (f.mType = .FLOAT → n = 4) ∧
      (f.mType = .DOUBLE → n = 8) ∧
      (n % 8 = 0 ↔ f.mType ≠ .SMALLINT ∧ f.mType ≠ .INT ∧ f.mType ≠ .FLOAT) := by
  obtain ⟨t, v⟩ := f
  cases t <;> simp only [ne_eq, not_true_eq_false, reduceCtorEq] at hn <;>
    cases v <;> simp [Field.wellTyped] at hw <;>
    simp only [Field.serialize, any_cast_string, any_cast_int16, any_cast_int32, any_cast_int64,
      any_cast_float, any_cast_double, bind, Except.bind, pure, Except.pure] <;>
    refine ⟨_, _, rfl, ?_⟩ <;> simp <;>
    (rename_i s; have hp := padded_length (4 + s.length); omega)

/-- C7 (witness): the amended statement at INT 7. -/
theorem C7_serialize_length_witness :
    ∃ n mem, (Field.mk .INT (.int32 7)).serialize .INT (fun _ => 0) = .ok (n, mem) ∧
      (FieldType.INT = .TEXT ∨ FieldType.INT = .BLOB → n % 8 = 0 ∧ 8 ≤ n) ∧
      (FieldType.INT = .NULLTYPE → n = 0) ∧
      (FieldType.INT = .SMALLINT → n = 2) ∧
      (FieldType.INT = .INT → n = 4) ∧
      (FieldType.INT = .BIGINT → n = 8) ∧
      (FieldType.INT = .FLOAT → n = 4) ∧
      (FieldType.INT = .DOUBLE → n = 8) ∧
      (n % 8 = 0 ↔ FieldType.INT ≠ .SMALLINT ∧ FieldType.INT ≠ .INT ∧ FieldType.INT ≠ .FLOAT) :=
  C7_serialize_length ⟨.INT, .int32 7⟩ .INT (fun _ => 0) (by decide) (by decide)

/-! ## Transaction: commit and rollback -/

/-- C8: on an active transaction that is not READ_WRITE but READ_ONLY, when the cache
reports a non-empty undo log, `commit` fails with the logic error "Transaction is read
only"; all it has done is ask the cache for the undo log: no insert into the transaction
log table, no write-back, no index write, no notification of the commit manager, and the
transaction is still active. -/
theorem C8_read_only_commit (env : Env) (self : Transaction) (log : List Nat)
    (hactive : self.mCommitted = false) (hro : self.mType = .READ_ONLY)
    (hlog : env.undoLog true = .ok log) (hne : log ≠ []) :
    self.commit env =
      (.error (.logic_error .readOnly), { self with trace := self.trace ++ [.cache (.undoLog true)] }) := by
  have hlen : log.length ≠ 0 := by
    intro h
    exact hne (List.length_eq_zero.mp h)
  simp [Transaction.commit, Transaction.writeBack, writeBackDefault, hactive, hro, hlog, hlen,
    Transaction.emit]

/-- C8 (witness): a read-only transaction with one staged insert and a three byte undo
log. -/
theorem C8_read_only_commit_witness :
    (⟨.READ_ONLY, 9, false, [.cache (.insert 1 7 4)]⟩ : Transaction).commit Env.pending =
      (.error (.logic_error .readOnly),
        ⟨.READ_ONLY, 9, false, [.cache (.insert 1 7 4), .cache (.undoLog true)]⟩) :=
  C8_read_only_commit Env.pending ⟨.READ_ONLY, 9, false, [.cache (.insert 1 7 4)]⟩ [1, 2, 3] rfl rfl rfl
    (by decide)

/-- C9 (counterexample): when the cache throws in `rollback`, the rollback of an active
transaction fails without notifying the commit manager and the transaction stays
active; when the commit manager throws, the transaction stays active as well, and a
second rollback runs again and notifies the commit manager a second time. -/
theorem C9_counterexample_collaborator_throws :
    (⟨.READ_WRITE, 9, false, []⟩ : Transaction).rollback (Env.rollbackFails 1) =
      (.error (.thrown 1), ⟨.READ_WRITE, 9, false, [.cache .rollback]⟩) ∧
    (⟨.READ_WRITE, 9, false, []⟩ : Transaction).rollback (Env.commitManagerFails 1) =
      (.error (.thrown 1), ⟨.READ_WRITE, 9, false, [.cache .rollback, .commit 9]⟩) ∧
    ((⟨.READ_WRITE, 9, false, []⟩ : Transaction).rollback (Env.commitManagerFails 1)).2.rollback
        Env.allOk =
      (.ok (), ⟨.READ_WRITE, 9, true,
        [.cache .rollback, .commit 9, .cache .rollback, .commit 9]⟩) := by
  decide

/-- C9 (amended): on an active transaction `rollback` calls `rollback` on the cache and
then notifies the commit manager of the snapshot, and issues nothing else (no store
request, no write-back, no index write). When both return normally, each has been called
exactly once and the transaction is terminal: any further commit or rollback fails with
"Transaction has already committed" and changes nothing. When the cache throws, the
exception is passed on, the commit manager is not notified and the transaction stays
active; when the commit manager throws, the exception is passed on and the transaction
stays active. The flag is set exactly when `rollback` returns normally. -/
theorem C9_rollback (env : Env) (self : Transaction) (hactive : self.mCommitted = false) :
    -- the cache and the commit manager return normally
    (∀ r : Nat, env.cache .rollback = .ok r → env.commit = .ok () →
      self.rollback env =
        (.ok (), { self with mCommitted := true,
                             trace := self.trace ++ [.cache .rollback, .commit self.mSnapshot] }) ∧
      (∀ env2 : Env, (self.rollback env).2.commit env2 =
        (.error (.logic_error .alreadyCommitted), (self.rollback env).2)) ∧
      (∀ env2 : Env, (self.rollback env).2.rollback env2 =
        (.error (.logic_error .alreadyCommitted), (self.rollback env).2))) ∧
    -- the cache throws
    (∀ e : Exn, env.cache .rollback = .error e →
      self.rollback env = (.error e, { self with trace := self.trace ++ [.cache .rollback] })) ∧
    -- the commit manager throws
    (∀ (r : Nat) (e : Exn), env.cache .rollback = .ok r → env.commit = .error e →
      self.rollback env =
        (.error e, { self with trace := self.trace ++ [.cache .rollback, .commit self.mSnapshot] })) ∧
    -- in every case
    ((self.rollback env).2.trace = self.trace ++ [.cache .rollback] ∨
      (self.rollback env).2.trace = self.trace ++ [.cache .rollback, .commit self.mSnapshot]) ∧
    ((self.rollback env).2.mCommitted = true ↔ (self.rollback env).1 = .ok ()) := by
  refine ⟨?_, ?_, ?_, ?_, ?_⟩
  · intro r hcache hcm
    have h : self.rollback env =
        (.ok (), { self with mCommitted := true,
                             trace := self.trace ++ [.cache .rollback, .commit self.mSnapshot] }) := by
      simp [Transaction.rollback, hactive, hcache, hcm, Transaction.emit]
    refine ⟨h, ?_, ?_⟩
    · intro env2
      rw [h]
      simp [Transaction.commit, Transaction.writeBack]
    · intro env2
      rw [h]
      simp [Transaction.rollback]
  · intro e hcache
    simp [Transaction.rollback, hactive, hcache, Transaction.emit]
  · intro r e hcache hcm
    simp [Transaction.rollback, hactive, hcache, hcm, Transaction.emit]
  · cases hc : env.cache .rollback with
    | error e => left; simp [Transaction.rollback, hactive, hc, Transaction.emit]
    | ok r =>
        right
        cases hm : env.commit with
        | error e => simp [Transaction.rollback, hactive, hc, hm, Transaction.emit]
        | ok u => simp [Transaction.rollback, hactive, hc, hm, Transaction.emit]
  · cases hc : env.cache .rollback with
    | error e => simp [Transaction.rollback, hactive, hc, Transaction.emit]
    | ok r =>
        cases hm : env.commit with
        | error e => simp [Transaction.rollback, hactive, hc, hm, Transaction.emit]
        | ok u => simp [Transaction.rollback, hactive, hc, hm, Transaction.emit]

/-- C9 (witness): rollback of a read-write transaction with one staged insert, with
collaborators that return normally and with a cache that throws. -/
theorem C9_rollback_witness :
    (⟨.READ_WRITE, 9, false, [.cache (.insert 1 7 4)]⟩ : Transaction).rollback Env.pending =
      (.ok (), ⟨.READ_WRITE, 9, true, [.cache (.insert 1 7 4), .cache .rollback, .commit 9]⟩) ∧
    (⟨.READ_WRITE, 9, false, [.cache (.insert 1 7 4)]⟩ : Transaction).rollback (Env.rollbackFails 1) =
      (.error (.thrown 1), ⟨.READ_WRITE, 9, false, [.cache (.insert 1 7 4), .cache .rollback]⟩) :=
  ⟨((C9_rollback Env.pending ⟨.READ_WRITE, 9, false, [.cache (.insert 1 7 4)]⟩ rfl).1 0 rfl rfl).1,
   (C9_rollback (Env.rollbackFails 1) ⟨.READ_WRITE, 9, false, [.cache (.insert 1 7 4)]⟩ rfl).2.1
     (.thrown 1) rfl⟩

/-! ## Field: casts that are refused -/

/-- C10 (counterexample): casting a NULL field to NULL, a BLOB field to BLOB and a NOTYPE
field to NOTYPE returns the field itself instead of failing. -/
theorem C10_counterexample_same_tag :
    Field.cast FloatLexicalCast.reject ⟨.NULLTYPE, .empty⟩ .NULLTYPE = .ok ⟨.NULLTYPE, .empty⟩ ∧
    Field.cast FloatLexicalCast.reject ⟨.BLOB, .string [1, 2]⟩ .BLOB = .ok ⟨.BLOB, .string [1, 2]⟩ ∧
    Field.cast FloatLexicalCast.reject ⟨.NOTYPE, .empty⟩ .NOTYPE = .ok ⟨.NOTYPE, .empty⟩ := by
  decide

/-- C10 (amended): for a field `f` whose payload agrees with its tag and a target `t`
different from the tag of `f`, `f.cast(t)` fails with `std::bad_cast` whenever the tag of
`f` or `t` is one of NULL, NOTYPE, BLOB. -/
theorem C10_bad_cast (fl : FloatLexicalCast) (f : Field) (t : FieldType)
    (hne : t ≠ f.mType) (hw : f.wellTyped = true)
    (hbad : f.mType.noCast = true ∨ t.noCast = true) :
    f.cast fl t = .error .bad_cast := by
  obtain ⟨ft, fv⟩ := f
  simp only at hne hbad
  cases ft <;> cases t <;> simp [FieldType.noCast] at hbad hne <;>
    first
    | (simp [Field.cast]; done)
    | (cases fv <;> simp [Field.wellTyped] at hw;
        simp [Field.cast, castTo, any_cast_string, any_cast_int16, any_cast_int32, any_cast_int64,
          any_cast_float, any_cast_double, bind, Except.bind])

/-- C10 (witness): INT 42 cast to BLOB. -/
theorem C10_bad_cast_witness :
    Field.cast FloatLexicalCast.reject ⟨.INT, .int32 42⟩ .BLOB = .error .bad_cast :=
  C10_bad_cast FloatLexicalCast.reject ⟨.INT, .int32 42⟩ .BLOB (by decide) (by decide) (by decide)

/-! ## Pointer table: insert -/

/-- C11 (counterexample): when the insert request itself fails with the error 7, the
pointer table's insert returns 0 and the error code is that error, not `object_exists`. -/
theorem C11_counterexample_request_error :
    (BdTreePointerTable.insert ⟨ClientHandle.answering (.ok ⟨false, 0, 0⟩) (.error (.request 7))
      (.ok true) (.ok true), 0⟩ ⟨5⟩ ⟨9⟩ none).result = 0 ∧
    (BdTreePointerTable.insert ⟨ClientHandle.answering (.ok ⟨false, 0, 0⟩) (.error (.request 7))
      (.ok true) (.ok true), 0⟩ ⟨5⟩ ⟨9⟩ none).ec = some (.request 7) ∧
    some (ErrorCode.request 7) ≠ some ErrorCode.object_exists := by
  decide

/-- C11 (amended): `BdTreePointerTable::insert(lptr, pptr)` issues exactly one store
request, an insert for key `lptr` with version 0, the single field `pptr` (the pointer
as a signed 64-bit value) and the fifth argument `true`. When the store accepts it the
call returns 1 and leaves the error code as it was; when the store completes the request
and refuses it, the call returns 0 and sets `object_exists`; when the request fails with
an error `e`, the call returns 0 and sets `e`. -/
theorem C11_pointer_insert (self : BdTreePointerTable) (lptr : logical_pointer) (pptr : physical_pointer)
    (ec : Option ErrorCode) :
    (BdTreePointerTable.insert self lptr pptr ec).calls =
      [StoreCall.insert (.table self.mTable) lptr.value 0
        [(FieldName.pptr, AnyValue.int64 (static_cast_int64 pptr.value))] (some true)] ∧
    (self.mHandle.insert lptr.value 0 (createPtrTuple pptr) true = .ok true →
      (BdTreePointerTable.insert self lptr pptr ec).result = 1 ∧
      (BdTreePointerTable.insert self lptr pptr ec).ec = ec) ∧
    (self.mHandle.insert lptr.value 0 (createPtrTuple pptr) true = .ok false →
      (BdTreePointerTable.insert self lptr pptr ec).result = 0 ∧
      (BdTreePointerTable.insert self lptr pptr ec).ec = some .object_exists) ∧
    (∀ e, self.mHandle.insert lptr.value 0 (createPtrTuple pptr) true = .error e →
      (BdTreePointerTable.insert self lptr pptr ec).result = 0 ∧
      (BdTreePointerTable.insert self lptr pptr ec).ec = some e) := by
  refine ⟨?_, ?_, ?_, ?_⟩
  · simp only [BdTreePointerTable.insert, BdTreeBaseTable.doInsert_calls, createPtrTuple]
  · intro h
    simp [BdTreePointerTable.insert, BdTreeBaseTable.doInsert, h]
  · intro h
    simp [BdTreePointerTable.insert, BdTreeBaseTable.doInsert, h]
  · intro e h
    simp [BdTreePointerTable.insert, BdTreeBaseTable.doInsert, h]

/-! ## Field: errors of the comparison operators -/

/-- C12 (evaluation at the failing input): the TEXT fields that `cast` produces from
SMALLINT 7 and BIGINT 7 have the same orderable tag, yet each of `<`, `<=`, `>`, `>=`
and `==` raises `bad_any_cast` on them instead of returning a truth value. -/
theorem C12_text_fields_from_cast_fail_every_operator :
    ∃ a b : Field,
      Field.cast FloatLexicalCast.reject ⟨.SMALLINT, .int16 7⟩ .TEXT = .ok a ∧
      Field.cast FloatLexicalCast.reject ⟨.BIGINT, .int64 7⟩ .TEXT = .ok b ∧
      a.mType = b.mType ∧ a.mType ≠ .BLOB ∧ a.mType ≠ .NOTYPE ∧
      a.lt b = .error .bad_any_cast ∧
      a.le b = .error .bad_any_cast ∧
      a.gt b = .error .bad_any_cast ∧
      a.ge b = .error .bad_any_cast ∧
      a.eq b = .error .bad_any_cast :=
  ⟨⟨.TEXT, .string [55]⟩, ⟨.TEXT, .string [55]⟩, by decide, by decide, rfl, by decide, by decide,
    by decide, by decide, by decide, by decide, by decide⟩

/-! ## Transaction: failed commit -/

/-- C13 (counterexample): a commit whose write-back throws propagates the exception and
leaves the flag unset: the transaction is still active, and a later rollback, or a later
commit, succeeds instead of failing with "Transaction has already committed". -/
theorem C13_counterexample_still_active :
    ((⟨.READ_WRITE, 9, false, []⟩ : Transaction).commit (Env.writeBackFails 1)).1 = .error (.thrown 1) ∧
    ((⟨.READ_WRITE, 9, false, []⟩ : Transaction).commit (Env.writeBackFails 1)).2.mCommitted = false ∧
    (((⟨.READ_WRITE, 9, false, []⟩ : Transaction).commit (Env.writeBackFails 1)).2.rollback Env.allOk).1
      = .ok () ∧
    (((⟨.READ_WRITE, 9, false, []⟩ : Transaction).commit (Env.writeBackFails 1)).2.commit Env.allOk).1
      = .ok () := by
  decide

/-- C13 (amended): when `writeBack` fails with an exception `e` during the commit of an
active transaction, `commit` fails with the same `e`, does not notify the commit manager
and leaves the transaction active; a later rollback with collaborators that answer
normally succeeds and only then makes the transaction terminal. -/
theorem C13_failed_write_back (env : Env) (self s : Transaction) (e : Exn)
    (hactive : self.mCommitted = false)
    (hfail : self.writeBack env writeBackDefault = (.error e, s)) :
    self.commit env = (.error e, s) ∧ s.mCommitted = false ∧
    (∀ (env2 : Env) (r : Nat), env2.cache .rollback = .ok r → env2.commit = .ok () →
      s.rollback env2 =
        (.ok (), { s with mCommitted := true,
                          trace := s.trace ++ [.cache .rollback, .commit self.mSnapshot] })) := by
  have hf := Transaction.writeBack_frame env self writeBackDefault
  rw [hfail] at hf
  simp only at hf
  have hs : s.mCommitted = false := by rw [hf.1, hactive]
  refine ⟨?_, hs, ?_⟩
  · simp [Transaction.commit, hfail]
  · intro env2 r hr hc
    simp [Transaction.rollback, hs, hr, hc, Transaction.emit, hf.2.2]

/-- C13 (witness): a commit whose cache throws while replaying the writes. -/
theorem C13_failed_write_back_witness :
    (⟨.READ_WRITE, 9, false, []⟩ : Transaction).commit (Env.writeBackFails 1) =
      (.error (.thrown 1),
        ⟨.READ_WRITE, 9, false,
          [.cache (.undoLog true),
           .store (.insert .txTable 9 0 [(FieldName.value, AnyValue.string [1, 2, 3])] none),
           .cache .writeBack]⟩) :=
  (C13_failed_write_back (Env.writeBackFails 1) ⟨.READ_WRITE, 9, false, []⟩ _ (.thrown 1) rfl
    (by decide)).1

/-! ## Field: cast between integers and text -/

/-- C14: for a field with an integer tag or TEXT whose payload agrees with the tag, and a
different target among the integer tags and TEXT, `cast` equals "render the source to its
text, then parse the text into the target type". An integer `v` cast to TEXT gives the
decimal form of `v`; cast to another integer tag it gives `v` when `v` is in the range of
the target and a bad cast (`bad_lexical_cast`) otherwise; a TEXT cast to an integer tag
gives the parsed value when the text is a decimal integer in the range of the target and
a bad cast otherwise. -/
theorem C14_cast_via_text (fl : FloatLexicalCast) (f : Field) (t : FieldType)
    (hf : f.mType.intOrText = true) (hw : f.wellTyped = true) (ht : t.intOrText = true)
    (hne : t ≠ f.mType) :
    specCastViaText f t = some (f.cast fl t) ∧
    (∀ v : Int, f.mValue = f.mType.intPayload v →
      (t = .TEXT → f.cast fl t = .ok ⟨.TEXT, .string (renderInt v)⟩) ∧
      (∀ w, t.intWidth = some w →
        f.cast fl t = if inRange w v then .ok ⟨t, t.intPayload v⟩ else .error .bad_lexical_cast)) ∧
    (∀ s : List Nat, f.mValue = .string s → ∀ w, t.intWidth = some w →
      f.cast fl t =
        match parseInt s with
        | some v => if inRange w v then .ok ⟨t, t.intPayload v⟩ else .error .bad_lexical_cast
        | none => .error .bad_lexical_cast) := by
  obtain ⟨ft, fv⟩ := f
  simp only at hf hne ⊢
  cases ft <;> simp [FieldType.intOrText] at hf <;>
    cases fv <;> simp [Field.wellTyped] at hw <;>
    cases t <;> simp [FieldType.intOrText] at ht hne <;>
    refine ⟨?_, ?_, ?_⟩ <;>
    simp [specCastViaText, Field.text, Field.cast, castTo, lexical_cast_int, lexical_cast_string,
      any_cast_int16, any_cast_int32, any_cast_int64, any_cast_string, bind, Except.bind, pure,
      Except.pure, FieldType.intWidth, FieldType.intPayload, parseInt_renderInt]
  all_goals first
    | (split_ifs <;> rfl)
    | (rename_i s; cases hp : parseInt s <;> simp; split_ifs <;> rfl)

/-- C14 (witness): INT 42 to TEXT gives "42", TEXT "42" to BIGINT gives 42, TEXT "abc" to
INT fails, INT 40000 to SMALLINT fails. -/
theorem C14_cast_via_text_witness :
    Field.cast FloatLexicalCast.reject ⟨.INT, .int32 42⟩ .TEXT = .ok ⟨.TEXT, .string [52, 50]⟩ ∧
    Field.cast FloatLexicalCast.reject ⟨.TEXT, .string [52, 50]⟩ .BIGINT = .ok ⟨.BIGINT, .int64 42⟩ ∧
    Field.cast FloatLexicalCast.reject ⟨.TEXT, .string [97, 98, 99]⟩ .INT = .error .bad_lexical_cast ∧
    Field.cast FloatLexicalCast.reject ⟨.INT, .int32 40000⟩ .SMALLINT = .error .bad_lexical_cast :=
  ⟨((C14_cast_via_text FloatLexicalCast.reject ⟨.INT, .int32 42⟩ .TEXT (by decide) (by decide)
      (by decide) (by decide)).2.1 42 rfl).1 rfl,
   (C14_cast_via_text FloatLexicalCast.reject ⟨.TEXT, .string [52, 50]⟩ .BIGINT (by decide) (by decide)
      (by decide) (by decide)).2.2 [52, 50] rfl 64 rfl,
   (C14_cast_via_text FloatLexicalCast.reject ⟨.TEXT, .string [97, 98, 99]⟩ .INT (by decide) (by decide)
      (by decide) (by decide)).2.2 [97, 98, 99] rfl 32 rfl,
   ((C14_cast_via_text FloatLexicalCast.reject ⟨.INT, .int32 40000⟩ .SMALLINT (by decide) (by decide)
      (by decide) (by decide)).2.1 40000 rfl).2 16 rfl⟩

/-! ## Transaction: terminal states are absorbing -/

/-- C15: once a commit or a rollback has succeeded, every further commit and every
further rollback fails with "Transaction has already committed" and returns the
transaction unchanged: nothing is added to the trace (no store request, no notification
of the commit manager) and the flag stays set. -/
theorem C15_terminal_absorbing (env : Env) (self s : Transaction)
    (h : self.commit env = (.ok (), s) ∨ self.rollback env = (.ok (), s)) :
    ∀ env2 : Env,
      s.commit env2 = (.error (.logic_error .alreadyCommitted), s) ∧
      s.rollback env2 = (.error (.logic_error .alreadyCommitted), s) := by
  intro env2
  have hc : s.mCommitted = true := by
    rcases h with h | h
    · exact Transaction.commit_ok_committed env self s h
    · exact Transaction.rollback_ok_committed env self s h
  exact Transaction.finished_absorbs env2 s hc

/-- C15 (witness): a rollback after a successful commit. -/
theorem C15_terminal_absorbing_witness :
    (⟨.READ_WRITE, 9, true,
        [.cache (.undoLog true),
         .store (.insert .txTable 9 0 [(FieldName.value, AnyValue.string [1, 2, 3])] none),
         .cache .writeBack, .cache .writeIndexes, .commit 9]⟩ : Transaction).rollback Env.allOk =
      (.error (.logic_error .alreadyCommitted),
        ⟨.READ_WRITE, 9, true,
          [.cache (.undoLog true),
           .store (.insert .txTable 9 0 [(FieldName.value, AnyValue.string [1, 2, 3])] none),
           .cache .writeBack, .cache .writeIndexes, .commit 9]⟩) :=
  (C15_terminal_absorbing Env.pending ⟨.READ_WRITE, 9, false, []⟩ _ (Or.inl (by decide)) Env.allOk).2

/-! ## Field: comparison with NULL -/

/-- C16 (counterexample): comparing a NULL field with INT 1 throws the invalid argument
"Can only compare fields of same type" (TypeMismatch), which is neither of the two
Unorderable errors. -/
theorem C16_counterexample_null_against_int :
    Field.lt ⟨.NULLTYPE, .empty⟩ ⟨.INT, .int32 1⟩ = .error (.invalid_argument .sameTypeOnly) ∧
    Field.eq ⟨.NULLTYPE, .empty⟩ ⟨.INT, .int32 1⟩ = .error (.invalid_argument .sameTypeOnly) ∧
    Exn.invalid_argument .sameTypeOnly ≠ Exn.invalid_argument .compareNoType ∧
    Exn.invalid_argument .sameTypeOnly ≠ Exn.invalid_argument .compareBlob := by
  decide

/-- C16 (amended): for a NULL field `a`: against another NULL field `a==b`, `a<=b` and
`a>=b` are true and `a<b`, `b<a`, `a>b` are false; against a field whose tag is not NULL
each of the five operators throws the invalid argument "Can only compare fields of same
type" (TypeMismatch). -/
theorem C16_null_comparison (a b : Field) (ha : a.mType = .NULLTYPE) :
    (b.mType = .NULLTYPE →
      a.eq b = .ok true ∧ a.lt b = .ok false ∧ b.lt a = .ok false ∧ a.gt b = .ok false ∧
      a.le b = .ok true ∧ a.ge b = .ok true) ∧
    (b.mType ≠ .NULLTYPE →
      a.lt b = .error (.invalid_argument .sameTypeOnly) ∧
      a.le b = .error (.invalid_argument .sameTypeOnly) ∧
      a.gt b = .error (.invalid_argument .sameTypeOnly) ∧
      a.ge b = .error (.invalid_argument .sameTypeOnly) ∧
      a.eq b = .error (.invalid_argument .sameTypeOnly)) := by
  constructor
  · intro hb
    have h1 : a.lt b = .ok false := by simp [Field.lt, ha, hb]
    have h2 : b.lt a = .ok false := by simp [Field.lt, ha, hb]
    simp [Field.le, Field.gt, Field.ge, Field.eq, h1, h2, bind, Except.bind, pure, Except.pure]
  · intro hb
    exact Field.compare_tag_mismatch a b (by rw [ha]; exact fun e => hb e.symm)

/-- C16 (witness): NULL against NULL, and NULL against a TEXT field. -/
theorem C16_null_comparison_witness :
    Field.eq ⟨.NULLTYPE, .empty⟩ ⟨.NULLTYPE, .empty⟩ = .ok true ∧
    Field.lt ⟨.NULLTYPE, .empty⟩ ⟨.TEXT, .stringPtr [97]⟩ = .error (.invalid_argument .sameTypeOnly) :=
  ⟨((C16_null_comparison ⟨.NULLTYPE, .empty⟩ ⟨.NULLTYPE, .empty⟩ rfl).1 rfl).1,
   ((C16_null_comparison ⟨.NULLTYPE, .empty⟩ ⟨.TEXT, .stringPtr [97]⟩ rfl).2 (by decide)).1⟩

/-! ## Backend: error codes -/

/-- C17: for the four shared primitives and for read, insert, update, remove of the
pointer table and read, insert, remove of the node table: when the store request fails
with an error `e`, the error code is set to exactly `e` (a request error is none of
`object_doesnt_exist`, `object_exists`, `wrong_version`) and the failure value is
returned (no tuple, `false`, 0, the pointer 0 with version 0, the empty node data); when
the request completes, the error code is either left as it was or set to
`object_doesnt_exist` by a read, `object_exists` by an insert, `wrong_version` by an
update or a remove. -/
theorem C17_error_codes_surface {α : Type} (base : BdTreeBaseTable α) (key : Nat)
    (tuple : GenericTuple) (ptr : BdTreePointerTable) (node : BdTreeNodeTable)
    (lptr : logical_pointer) (pptr : physical_pointer) (data : List Nat) (version : Nat)
    (ec : Option ErrorCode) :
    -- the four shared primitives, request failed with `e`
    (∀ e, base.mHandle.get key = .error e →
      (base.doRead key ec).ec = some e ∧ (base.doRead key ec).result = none) ∧
    (∀ e, base.mHandle.insert key 0 tuple true = .error e →
      (base.doInsert key tuple ec).ec = some e ∧ (base.doInsert key tuple ec).result = false) ∧
    (∀ e, base.mHandle.update key version tuple = .error e →
      (base.doUpdate key tuple version ec).ec = some e ∧
      (base.doUpdate key tuple version ec).result = false) ∧
    (∀ e, base.mHandle.remove key version = .error e →
      (base.doRemove key version ec).ec = some e ∧ (base.doRemove key version ec).result = false) ∧
    -- pointer table, request failed with `e`
    (∀ e, ptr.mHandle.get lptr.value = .error e →
      (BdTreePointerTable.read ptr lptr ec).ec = some e ∧
      (BdTreePointerTable.read ptr lptr ec).result = (⟨0⟩, 0)) ∧
    (∀ e, ptr.mHandle.insert lptr.value 0 (createPtrTuple pptr) true = .error e →
      (BdTreePointerTable.insert ptr lptr pptr ec).ec = some e ∧
      (BdTreePointerTable.insert ptr lptr pptr ec).result = 0) ∧
    (∀ e, ptr.mHandle.update lptr.value version (createPtrTuple pptr) = .error e →
      (BdTreePointerTable.update ptr lptr pptr version ec).ec = some e ∧
      (BdTreePointerTable.update ptr lptr pptr version ec).result = 0) ∧
    (∀ e, ptr.mHandle.remove lptr.value (if version = UINT64_MAX then UINT64_MAX - 2 else version)
        = .error e →
      (BdTreePointerTable.remove ptr lptr version ec).ec = some e) ∧
    -- node table, request failed with `e`
    (∀ e, node.mHandle.get pptr.value = .error e →
      (BdTreeNodeTable.read node pptr ec).ec = some e ∧
      (BdTreeNodeTable.read node pptr ec).result = .ok none) ∧
    (∀ e, node.mHandle.insert pptr.value 0 (createNodeTuple data) true = .error e →
      (BdTreeNodeTable.insert node pptr data ec).ec = some e) ∧
    (∀ e, node.mHandle.remove pptr.value 1 = .error e →
      (BdTreeNodeTable.remove node pptr ec).ec = some e) ∧
    -- a failed request never shows as one of the three backend codes
    (∀ n, ErrorCode.request n ≠ .object_doesnt_exist ∧ ErrorCode.request n ≠ .object_exists ∧
      ErrorCode.request n ≠ .wrong_version) ∧
    -- pointer table, request completed
    (∀ t, ptr.mHandle.get lptr.value = .ok t →
      (BdTreePointerTable.read ptr lptr ec).ec = (if t.found then ec else some .object_doesnt_exist)) ∧
    (∀ r, ptr.mHandle.insert lptr.value 0 (createPtrTuple pptr) true = .ok r →
      (BdTreePointerTable.insert ptr lptr pptr ec).ec = (if r then ec else some .object_exists)) ∧
    (∀ r, ptr.mHandle.update lptr.value version (createPtrTuple pptr) = .ok r →
      (BdTreePointerTable.update ptr lptr pptr version ec).ec = (if r then ec else some .wrong_version)) ∧
    (∀ r, ptr.mHandle.remove lptr.value (if version = UINT64_MAX then UINT64_MAX - 2 else version)
        = .ok r →
      (BdTreePointerTable.remove ptr lptr version ec).ec = (if r then ec else some .wrong_version)) ∧
    -- node table, request completed
    (∀ t, node.mHandle.get pptr.value = .ok t →
      (BdTreeNodeTable.read node pptr ec).ec = (if t.found then ec else some .object_doesnt_exist)) ∧
    (∀ r, node.mHandle.insert pptr.value 0 (createNodeTuple data) true = .ok r →
      (BdTreeNodeTable.insert node pptr data ec).ec = (if r then ec else some .object_exists)) ∧
    (∀ r, node.mHandle.remove pptr.value 1 = .ok r →
      (BdTreeNodeTable.remove node pptr ec).ec = (if r then ec else some .wrong_version)) := by
  refine ⟨?_, ?_, ?_, ?_, ?_, ?_, ?_, ?_, ?_, ?_, ?_, ?_, ?_, ?_, ?_, ?_, ?_, ?_, ?_⟩
  · intro e h; simp [BdTreeBaseTable.doRead, h]
  · intro e h; simp [BdTreeBaseTable.doInsert, h]
  · intro e h; simp [BdTreeBaseTable.doUpdate, h]
  · intro e h; simp [BdTreeBaseTable.doRemove, h]
  · intro e h; simp [BdTreePointerTable.read, BdTreeBaseTable.doRead, h]
  · intro e h; simp [BdTreePointerTable.insert, BdTreeBaseTable.doInsert, h]
  · intro e h; simp [BdTreePointerTable.update, BdTreeBaseTable.doUpdate, h]
  · intro e h; simp [BdTreePointerTable.remove, BdTreeBaseTable.doRemove, h]
  · intro e h; simp [BdTreeNodeTable.read, BdTreeBaseTable.doRead, h]
  · intro e h; simp [BdTreeNodeTable.insert, BdTreeBaseTable.doInsert, h]
  · intro e h; simp [BdTreeNodeTable.remove, BdTreeBaseTable.doRemove, h]
  · intro n; simp
  · intro t h; cases hf : t.found <;> simp [BdTreePointerTable.read, BdTreeBaseTable.doRead, h, hf]
  · intro r h; cases r <;> simp [BdTreePointerTable.insert, BdTreeBaseTable.doInsert, h]
  · intro r h; cases r <;> simp [BdTreePointerTable.update, BdTreeBaseTable.doUpdate, h]
  · intro r h; cases r <;> simp [BdTreePointerTable.remove, BdTreeBaseTable.doRemove, h]
  · intro t h; cases hf : t.found <;> simp [BdTreeNodeTable.read, BdTreeBaseTable.doRead, h, hf]
  · intro r h; cases r <;> simp [BdTreeNodeTable.insert, BdTreeBaseTable.doInsert, h]
  · intro r h; cases r <;> simp [BdTreeNodeTable.remove, BdTreeBaseTable.doRemove, h]

/-- C18: `BdTreePointerTable::read(lptr)` issues exactly one store request, a get for key
`lptr`. When the tuple is not found it sets `object_doesnt_exist` and returns the
physical pointer 0 with version 0; when the tuple is found it leaves the error code as
it was and returns the `pptr` field of the tuple, converted to unsigned, with the version
of the tuple. -/
theorem C18_pointer_read (self : BdTreePointerTable) (lptr : logical_pointer) (ec : Option ErrorCode) :
    (BdTreePointerTable.read self lptr ec).calls = [StoreCall.get (.table self.mTable) lptr.value] ∧
    (∀ t, self.mHandle.get lptr.value = .ok t → t.found = false →
      (BdTreePointerTable.read self lptr ec).ec = some .object_doesnt_exist ∧
      (BdTreePointerTable.read self lptr ec).result = (⟨0⟩, 0)) ∧
    (∀ t, self.mHandle.get lptr.value = .ok t → t.found = true →
      (BdTreePointerTable.read self lptr ec).ec = ec ∧
      (BdTreePointerTable.read self lptr ec).result = (⟨static_cast_uint64 t.data⟩, t.version)) := by
  refine ⟨?_, ?_, ?_⟩
  · simp only [BdTreePointerTable.read, BdTreeBaseTable.doRead_calls]
    split <;> rfl
  · intro t h hf
    simp [BdTreePointerTable.read, BdTreeBaseTable.doRead, h, hf]
  · intro t h hf
    simp [BdTreePointerTable.read, BdTreeBaseTable.doRead, h, hf]

/-! ## Transaction: order of the commit -/

/-- C19: on an active READ_WRITE transaction whose collaborators all succeed, `commit`
does exactly this, in this order: ask the cache for the undo log with the index records,
insert the log as the single field `value` into the transaction log table at key
`snapshot.version` with version 0, let the cache replay its writes, let the cache write
the indexes, notify the commit manager of the snapshot; then the flag is set. -/
theorem C19_commit_order (env : Env) (self : Transaction) (log : List Nat) (a b : Nat)
    (hactive : self.mCommitted = false) (hrw : self.mType = .READ_WRITE)
    (hlog : env.undoLog true = .ok log) (hins : env.insertDone = true)
    (hwb : env.cache .writeBack = .ok a) (hwi : env.cache .writeIndexes = .ok b)
    (hcm : env.commit = .ok ()) :
    self.commit env =
      (.ok (), { self with
        mCommitted := true,
        trace := self.trace ++
          [.cache (.undoLog true),
           .store (.insert .txTable self.mSnapshot 0 [(FieldName.value, AnyValue.string log)] none),
           .cache .writeBack,
           .cache .writeIndexes,
           .commit self.mSnapshot] }) := by
  simp [Transaction.commit, Transaction.writeBack, Transaction.writeUndoLog, writeBackDefault,
    hactive, hrw, hlog, hins, hwb, hwi, hcm, Transaction.emit]

/-- C19 (witness): the commit of a transaction with a three byte undo log. -/
theorem C19_commit_order_witness :
    (⟨.READ_WRITE, 9, false, []⟩ : Transaction).commit Env.pending =
      (.ok (), ⟨.READ_WRITE, 9, true,
        [.cache (.undoLog true),
         .store (.insert .txTable 9 0 [(FieldName.value, AnyValue.string [1, 2, 3])] none),
         .cache .writeBack, .cache .writeIndexes, .commit 9]⟩) :=
  C19_commit_order Env.pending ⟨.READ_WRITE, 9, false, []⟩ [1, 2, 3] 0 0 rfl rfl rfl rfl rfl rfl rfl

/-! ## Node table: insert and remove -/

/-- C20 (counterexample): the node table's insert sends the same kind of store insert as
the pointer table's insert, with the fifth argument `true`, and when the store refuses it
the error code becomes `object_exists`: it is not a blind insert. -/
theorem C20_counterexample_same_insert_as_pointer_table :
    (BdTreeNodeTable.insert ⟨ClientHandle.answering (.ok ⟨false, 0, ⟨false, .BLOB, []⟩⟩) (.ok false)
      (.ok true) (.ok true), 3⟩ ⟨9⟩ [1, 2] none).calls =
      [StoreCall.insert (.table 3) 9 0 [(FieldName.node, AnyValue.string [1, 2])] (some true)] ∧
    (BdTreeNodeTable.insert ⟨ClientHandle.answering (.ok ⟨false, 0, ⟨false, .BLOB, []⟩⟩) (.ok false)
      (.ok true) (.ok true), 3⟩ ⟨9⟩ [1, 2] none).ec = some .object_exists ∧
    (BdTreePointerTable.insert ⟨ClientHandle.answering (.ok ⟨false, 0, 0⟩) (.ok false)
      (.ok true) (.ok true), 3⟩ ⟨9⟩ ⟨4⟩ none).calls =
      [StoreCall.insert (.table 3) 9 0 [(FieldName.pptr, AnyValue.int64 4)] (some true)] := by
  decide

/-- C20 (amended): `BdTreeNodeTable::insert(pptr, data)` issues one store insert for key
`pptr` with version 0 and the single field `node = data`, through the same `doInsert` as
the pointer table's insert and so with the same fifth argument `true`; a refused insert
sets `object_exists`. `BdTreeNodeTable::remove(pptr)` issues one store remove for key
`pptr` at expected version 1. -/
theorem C20_node_insert_remove (self : BdTreeNodeTable) (ptr : BdTreePointerTable)
    (pptr p : physical_pointer) (lptr : logical_pointer) (data : List Nat) (ec : Option ErrorCode) :
    (BdTreeNodeTable.insert self pptr data ec).calls =
      [StoreCall.insert (.table self.mTable) pptr.value 0 [(FieldName.node, AnyValue.string data)]
        (some true)] ∧
    (∃ tuple, (BdTreePointerTable.insert ptr lptr p ec).calls =
      [StoreCall.insert (.table ptr.mTable) lptr.value 0 tuple (some true)]) ∧
    (self.mHandle.insert pptr.value 0 (createNodeTuple data) true = .ok false →
      (BdTreeNodeTable.insert self pptr data ec).ec = some .object_exists) ∧
    (BdTreeNodeTable.remove self pptr ec).calls = [StoreCall.remove (.table self.mTable) pptr.value 1] := by
  refine ⟨?_, ⟨createPtrTuple p, ?_⟩, ?_, ?_⟩
  · simp only [BdTreeNodeTable.insert, BdTreeBaseTable.doInsert_calls, createNodeTuple]
  · simp only [BdTreePointerTable.insert, BdTreeBaseTable.doInsert_calls]
  · intro h
    simp [BdTreeNodeTable.insert, BdTreeBaseTable.doInsert, h]
  · simp only [BdTreeNodeTable.remove, BdTreeBaseTable.doRemove_calls]

/-! ## Pointer table: the stored pointer value -/

/-- C21: for every 64-bit physical pointer `p`, also from `2^63` on, `createPtrTuple`
stores `p` as the signed 64-bit value with the same bit pattern (`p - 2^64` from `2^63`
on, always in the range of a BIGINT), the unsigned reading of that value is `p` again,
and `BdTreePointerTable::read` of a found tuple holding the stored value returns exactly
`p` with the version of the tuple and sets no error code. -/
theorem C21_pointer_round_trip (self : BdTreePointerTable) (lptr : logical_pointer)
    (p : physical_pointer) (version : Nat) (ec : Option ErrorCode)
    (hp : p.value < 2 ^ 64)
    (hget : self.mHandle.get lptr.value = .ok ⟨true, version, static_cast_int64 p.value⟩) :
    createPtrTuple p = [(FieldName.pptr, AnyValue.int64 (static_cast_int64 p.value))] ∧
    -(2 ^ 63 : Int) ≤ static_cast_int64 p.value ∧ static_cast_int64 p.value < 2 ^ 63 ∧
    (2 ^ 63 ≤ p.value → static_cast_int64 p.value = (p.value : Int) - 2 ^ 64) ∧
    static_cast_uint64 (static_cast_int64 p.value) = p.value ∧
    (BdTreePointerTable.read self lptr ec).result = (p, version) ∧
    (BdTreePointerTable.read self lptr ec).ec = ec := by
  have h1 := static_cast_int64_eq p.value hp
  have h2 := static_cast_uint64_int64 p.value hp
  refine ⟨rfl, h1.2.2.1, h1.2.2.2, h1.2.1, h2, ?_, ?_⟩
  · simp [BdTreePointerTable.read, BdTreeBaseTable.doRead, hget, h2]
  · simp [BdTreePointerTable.read, BdTreeBaseTable.doRead, hget]

/-- C21 (witness): the pointer `2^64 - 1` is stored as -1 and read back as `2^64 - 1`. -/
theorem C21_pointer_round_trip_witness :
    createPtrTuple ⟨18446744073709551615⟩ = [(FieldName.pptr, AnyValue.int64 (-1))] ∧
    static_cast_uint64 (-1) = 18446744073709551615 ∧
    (BdTreePointerTable.read ⟨ClientHandle.answering (.ok ⟨true, 3, -1⟩) (.ok true) (.ok true)
      (.ok true), 0⟩ ⟨5⟩ none).result = (⟨18446744073709551615⟩, 3) :=
  ⟨(C21_pointer_round_trip ⟨ClientHandle.answering (.ok ⟨true, 3, -1⟩) (.ok true) (.ok true)
      (.ok true), 0⟩ ⟨5⟩ ⟨18446744073709551615⟩ 3 none (by decide) (by decide)).1,
   (C21_pointer_round_trip ⟨ClientHandle.answering (.ok ⟨true, 3, -1⟩) (.ok true) (.ok true)
      (.ok true), 0⟩ ⟨5⟩ ⟨18446744073709551615⟩ 3 none (by decide) (by decide)).2.2.2.2.1,
   (C21_pointer_round_trip ⟨ClientHandle.answering (.ok ⟨true, 3, -1⟩) (.ok true) (.ok true)
      (.ok true), 0⟩ ⟨5⟩ ⟨18446744073709551615⟩ 3 none (by decide) (by decide)).2.2.2.2.2.1⟩

end TellDB
